import Mathlib

/-!
# light-memory-pool: aligned allocation backend, usage statistics and memory pool

A shallow embedding of `src/allocator.cc`, `src/memory_pool.h`, `src/memory_pool.cc`
and `src/status.h`.

* `int64_t` values are integers in `[INT64_MIN, INT64_MAX]`; arithmetic on them is
  two's complement (`wrap64`).
* Pointers are natural-number addresses; `nullptr` is `0`.
* The C library is an explicit environment `Env`: `posix_memalign` is a function of the
  history of library calls, so every behaviour of the allocator is some `Env`.
* `std::abort()` (reached through the `DCHECK` macros of `macros.h`) is the result `none`.
* `RETURN_NOT_OK(e)` of status.h expands to `if (!e.ok()) return (e);`: the expression `e`
  is written twice in the expansion, so a call that does not return OK is made a second
  time and the status of the second call is the one returned.
-/

namespace arrow

/-! ## status.h -/

/-- The enum `StatusCode` of status.h. -/
inductive StatusCode
  | Invalid
  | OK
  | Cancelled
  | KeyError
  | CapacityError
  | OutOfMemory
  deriving DecidableEq, Repr

/-- The class `Status`: a code and a message. -/
structure Status where
  code_ : StatusCode
  msg_ : String
  deriving DecidableEq, Repr

namespace Status

/-- Source `Status::code()`. -/
def code (s : Status) : StatusCode := s.code_

/-- Source `Status::message()`. -/
def message (s : Status) : String := s.msg_

/-- Source `Status::ok()`. -/
def ok (s : Status) : Bool := decide (s.code_ = StatusCode.OK)

/-- Source `Status::OK()`: the default constructed status. -/
def OK : Status := ⟨StatusCode.OK, ""⟩

/-- Source `Status::Invalid(msg)`. -/
def Invalid (msg : String) : Status := ⟨StatusCode.Invalid, msg⟩

/-- Source `Status::CapacityError(msg)`. -/
def CapacityError (msg : String) : Status := ⟨StatusCode.CapacityError, msg⟩

/-- Source `Status::OutOfMemory(msg)`. -/
def OutOfMemory (msg : String) : Status := ⟨StatusCode.OutOfMemory, msg⟩

end Status

/-! ## Machine integers -/

/-- Source `std::numeric_limits<int64_t>::min()`. -/
def INT64_MIN : Int := -9223372036854775808

/-- Source `std::numeric_limits<int64_t>::max()`. -/
def INT64_MAX : Int := 9223372036854775807

/-- The value is representable as an `int64_t`. -/
def InInt64 (x : Int) : Prop := INT64_MIN ≤ x ∧ x ≤ INT64_MAX

instance (x : Int) : Decidable (InInt64 x) := by
  unfold InInt64
  exact inferInstance

/-- Two's complement reduction of an integer to `int64_t`. -/
def wrap64 (x : Int) : Int :=
  (x + 9223372036854775808) % 18446744073709551616 - 9223372036854775808

/-- The conversion `static_cast<uint64_t>(x)` of an `int64_t`. -/
def static_cast_uint64 (x : Int) : Nat := (x % 18446744073709551616).toNat

/-! ## The C library -/

/-- Source `ENOMEM` of `<errno.h>` (Linux value). -/
def ENOMEM : Int := 12

/-- Source `EINVAL` of `<errno.h>` (Linux value). -/
def EINVAL : Int := 22

/-- One call into the C library, as the allocator backend issues them. -/
inductive SysCall
  | posix_memalign (alignment size : Nat) (result : Int) (stored : Option Nat)
  | memcpy (dst src n : Nat)
  | free (ptr : Nat)
  | malloc_trim (pad : Nat)
  deriving DecidableEq, Repr

/-- The state of the process outside the pool: the history of C library calls (oldest
first) and the bytes of memory. -/
structure Sys where
  trace : List SysCall
  mem : Nat → Nat

/-- The platform and its C library.
* `size_t_max` is `std::numeric_limits<size_t>::max()`;
* `zero_size_area` is the address of the static `zero_size_area` of allocator.cc;
* `glibc` tells whether `__GLIBC__` is defined;
* `posix_memalign trace alignment size` is what `posix_memalign(memptr, alignment, size)`
  does after the calls in `trace`: its result code, and the address it stores in
  `*memptr` (`none` when it leaves `*memptr` as it was). -/
structure Env where
  size_t_max : Nat
  zero_size_area : Nat
  glibc : Bool
  posix_memalign : List SysCall → Nat → Nat → Int × Option Nat

/-- The conversion `static_cast<size_t>(x)`. -/
def static_cast_size_t (env : Env) (x : Int) : Nat :=
  (x % ((env.size_t_max : Int) + 1)).toNat

/-- The library call `memcpy(dst, src, n)`. -/
def Sys.memcpy (s : Sys) (dst src n : Nat) : Sys :=
  { trace := s.trace ++ [SysCall.memcpy dst src n],
    mem := fun a => if dst ≤ a ∧ a < dst + n then s.mem (src + (a - dst)) else s.mem a }

/-- The library call `free(ptr)`. -/
def Sys.free (s : Sys) (ptr : Nat) : Sys :=
  { s with trace := s.trace ++ [SysCall.free ptr] }

/-- The library call `malloc_trim(pad)`. -/
def Sys.malloc_trim (s : Sys) (pad : Nat) : Sys :=
  { s with trace := s.trace ++ [SysCall.malloc_trim pad] }

/-! ## allocator.cc -/

/-- The constant `kAlignment`. -/
def kAlignment : Nat := 64

/-- Source `SystemAllocator::AllocateAligned(size, out)`: the status, the value of `*out`
afterwards, and the process state afterwards. -/
def AllocateAligned (env : Env) (size : Int) (out : Nat) (s : Sys) : Status × Nat × Sys :=
  if size = 0 then
    (Status.OK, env.zero_size_area, s)
  else
    let r := env.posix_memalign s.trace kAlignment (static_cast_size_t env size)
    let result := r.1
    let out1 := r.2.getD out
    let s1 : Sys :=
      { s with trace := s.trace ++
          [SysCall.posix_memalign kAlignment (static_cast_size_t env size) r.1 r.2] }
    if result = ENOMEM then
      (Status.OutOfMemory ("malloc of size " ++ toString size ++ " failed"), out1, s1)
    else if result = EINVAL then
      (Status.Invalid ("invalid alignment parameter: " ++ toString kAlignment), out1, s1)
    else
      (Status.OK, out1, s1)

/-- Source `SystemAllocator::DeallocateAligned(ptr, size)`; `none` is `std::abort()` from
`DCHECK_EQ(size, 0)`. -/
def DeallocateAligned (env : Env) (ptr : Nat) (size : Int) (s : Sys) : Option Sys :=
  if ptr = env.zero_size_area then
    if size = 0 then some s else none
  else
    some (s.free ptr)

/-- Source `SystemAllocator::ReallocateAligned(old_size, new_size, ptr)`: the status, the value
of `*ptr` afterwards and the process state afterwards; `none` is `std::abort()`. -/
def ReallocateAligned (env : Env) (old_size new_size : Int) (ptr : Nat) (s : Sys) :
    Option (Status × Nat × Sys) :=
  let previous_ptr := ptr
  if previous_ptr = env.zero_size_area then
    if old_size = 0 then some (AllocateAligned env new_size ptr s) else none
  else if new_size = 0 then
    match DeallocateAligned env previous_ptr old_size s with
    | none => none
    | some s1 => some (Status.OK, env.zero_size_area, s1)
  else
    let r := AllocateAligned env new_size 0 s
    if !r.1.ok then
      -- `return (AllocateAligned(new_size, &out));` of the expanded RETURN_NOT_OK
      let r2 := AllocateAligned env new_size r.2.1 r.2.2
      some (r2.1, ptr, r2.2.2)
    else if r.2.1 = 0 then
      none
    else
      let s2 := r.2.2.memcpy r.2.1 ptr (static_cast_size_t env (min new_size old_size))
      some (Status.OK, r.2.1, s2.free ptr)

/-- Source `SystemAllocator::ReleaseUnused()`. -/
def ReleaseUnused (env : Env) (s : Sys) : Sys :=
  if env.glibc then s.malloc_trim 0 else s

/-! ## memory_pool.h: usage statistics -/

/-- The class `internal::MemoryPoolStats`: two `int64_t` counters. -/
structure MemoryPoolStats where
  bytes_allocated_ : Int
  max_memory_ : Int
  deriving DecidableEq, Repr

namespace MemoryPoolStats

/-- The constructor `MemoryPoolStats()`. -/
def init : MemoryPoolStats := ⟨0, 0⟩

/-- Source `MemoryPoolStats::max_memory()`. -/
def max_memory (s : MemoryPoolStats) : Int := s.max_memory_

/-- Source `MemoryPoolStats::bytes_allocated()`. -/
def bytes_allocated (s : MemoryPoolStats) : Int := s.bytes_allocated_

/-- Source `MemoryPoolStats::UpdateAllocatedBytes(diff)`, one caller at a time. -/
def UpdateAllocatedBytes (s : MemoryPoolStats) (diff : Int) : MemoryPoolStats :=
  let allocated := wrap64 (s.bytes_allocated_ + diff)
  { bytes_allocated_ := wrap64 (s.bytes_allocated_ + diff),
    max_memory_ := if diff > 0 ∧ allocated > s.max_memory_ then allocated else s.max_memory_ }

/-- Both counters hold `int64_t` values. -/
def Valid (s : MemoryPoolStats) : Prop := InInt64 s.bytes_allocated_ ∧ InInt64 s.max_memory_

end MemoryPoolStats

/-! ## memory_pool.cc: the pool over the system allocator -/

/-- A `BaseMemoryPoolImpl<SystemAllocator>` together with the process it runs in. -/
structure Pool where
  stats_ : MemoryPoolStats
  sys : Sys

namespace Pool

/-- Source `BaseMemoryPoolImpl::bytes_allocated()`. -/
def bytes_allocated (p : Pool) : Int := p.stats_.bytes_allocated

/-- Source `BaseMemoryPoolImpl::max_memory()`. -/
def max_memory (p : Pool) : Int := p.stats_.max_memory

/-- Source `BaseMemoryPoolImpl::Allocate(size, out)`: the status, `*out` afterwards, the pool
afterwards. -/
def Allocate (env : Env) (size : Int) (out : Nat) (p : Pool) : Status × Nat × Pool :=
  if size < 0 then
    (Status.Invalid "negative malloc size", out, p)
  else if static_cast_uint64 size ≥ env.size_t_max then
    (Status.CapacityError "malloc size overflows size_t", out, p)
  else
    let r := AllocateAligned env size out p.sys
    if !r.1.ok then
      -- `return (Allocator::AllocateAligned(size, out));` of the expanded RETURN_NOT_OK
      let r2 := AllocateAligned env size r.2.1 r.2.2
      (r2.1, r2.2.1, { p with sys := r2.2.2 })
    else
      (Status.OK, r.2.1, { stats_ := p.stats_.UpdateAllocatedBytes size, sys := r.2.2 })

/-- Source `BaseMemoryPoolImpl::Reallocate(old_size, new_size, ptr)`; `none` is `std::abort()`. -/
def Reallocate (env : Env) (old_size new_size : Int) (ptr : Nat) (p : Pool) :
    Option (Status × Nat × Pool) :=
  if new_size < 0 then
    some (Status.Invalid "negative realloc size", ptr, p)
  else if static_cast_uint64 new_size ≥ env.size_t_max then
    some (Status.CapacityError "realloc overflows size_t", ptr, p)
  else
    match ReallocateAligned env old_size new_size ptr p.sys with
    | none => none
    | some r =>
      if !r.1.ok then
        -- `return (Allocator::ReallocateAligned(old_size, new_size, ptr));` of the
        -- expanded RETURN_NOT_OK
        match ReallocateAligned env old_size new_size r.2.1 r.2.2 with
        | none => none
        | some r2 => some (r2.1, r2.2.1, { p with sys := r2.2.2 })
      else
        some (Status.OK, r.2.1,
          { stats_ := p.stats_.UpdateAllocatedBytes (wrap64 (new_size - old_size)),
            sys := r.2.2 })

/-- Source `BaseMemoryPoolImpl::Free(buffer, size)`; `none` is `std::abort()`. -/
def Free (env : Env) (buffer : Nat) (size : Int) (p : Pool) : Option Pool :=
  match DeallocateAligned env buffer size p.sys with
  | none => none
  | some s1 =>
    some { stats_ := p.stats_.UpdateAllocatedBytes (wrap64 (-size)), sys := s1 }

/-- Source `BaseMemoryPoolImpl::ReleaseUnused()`. -/
def ReleaseUnused (env : Env) (p : Pool) : Pool :=
  { p with sys := arrow.ReleaseUnused env p.sys }

/-- A pool right after construction, in a process with state `s`. -/
def fresh (s : Sys) : Pool := { stats_ := MemoryPoolStats.init, sys := s }

end Pool

/-! ## memory_pool.cc: the backend registry and the default pool

`internal::GetEnvVar` comes from `io_util.h`, which is not part of the sources at hand; what
it returns for `kDefaultBackendEnvVar` is the parameter `maybe_name` (`none` when the
variable is not set). Lines written to `std::cout` are returned as a list of strings. -/

/-- The constant `kDefaultBackendEnvVar`. -/
def kDefaultBackendEnvVar : String := "ARROW_DEFAULT_MEMORY_POOL"

/-- Source `enum class MemoryPoolBackend : uint8_t`: a value of the underlying type. -/
structure MemoryPoolBackend where
  value : Nat
  deriving DecidableEq, Repr

/-- The only enumerator, `MemoryPoolBackend::System`. -/
def MemoryPoolBackend.System : MemoryPoolBackend := ⟨0⟩

/-- The struct `SupportedBackend`. -/
structure SupportedBackend where
  name : String
  backend : MemoryPoolBackend
  deriving DecidableEq, Repr

/-- Source `SupportedBackends()`: the registry. -/
def SupportedBackends : List SupportedBackend := [⟨"system", MemoryPoolBackend.System⟩]

/-- The lambda `unsupported_backend(name)`: the line it writes. -/
def unsupported_backend (name : String) : String :=
  "Unsupported backend '" ++ name ++ "' specified in " ++ kDefaultBackendEnvVar

/-- The lambda that initialises the function-local static `user_selected_backend` of
`UserSelectedBackend()`: the selected backend, if any, and the lines written. -/
def user_selected_backend (maybe_name : Option String) :
    Option MemoryPoolBackend × List String :=
  match maybe_name with
  | none => (none, [])
  | some name =>
    if name = "" then
      (none, [])
    else
      match SupportedBackends.find? (fun backend => decide (name = backend.name)) with
      | some found => (some found.backend, [])
      | none => (none, [unsupported_backend name])

/-- The function-local statics of the process: `user_selected_backend` is `none` until
`UserSelectedBackend()` has been called once. -/
structure Statics where
  user_selected_backend : Option (Option MemoryPoolBackend)
  deriving DecidableEq, Repr

/-- Source `UserSelectedBackend()`: the static is initialised by the first call and returned
as it is by the later ones. -/
def UserSelectedBackend (maybe_name : Option String) (st : Statics) :
    Option MemoryPoolBackend × Statics × List String :=
  match st.user_selected_backend with
  | some v => (v, st, [])
  | none =>
    ((user_selected_backend maybe_name).1,
     { user_selected_backend := some (user_selected_backend maybe_name).1 },
     (user_selected_backend maybe_name).2)

/-- Source `DefaultBackend()`. -/
def DefaultBackend (maybe_name : Option String) (st : Statics) :
    MemoryPoolBackend × Statics × List String :=
  let r := UserSelectedBackend maybe_name st
  match r.1 with
  | some backend => (backend, r.2.1, r.2.2)
  | none => ((SupportedBackends.head (by decide)).backend, r.2.1, r.2.2)

/-- A `SystemMemoryPool` object: the statistics it inherits from `BaseMemoryPoolImpl`. -/
structure SystemMemoryPool where
  stats_ : MemoryPoolStats
  deriving DecidableEq, Repr

/-- Source `SystemMemoryPool::backend_name()`. -/
def SystemMemoryPool.backend_name (_ : SystemMemoryPool) : String := "system"

/-- Source `MemoryPool::CreateDefault()`: the new pool, `none` for `nullptr`. -/
def CreateDefault (maybe_name : Option String) (st : Statics) :
    Option SystemMemoryPool × Statics × List String :=
  let r := DefaultBackend maybe_name st
  if r.1 = MemoryPoolBackend.System then
    (some { stats_ := MemoryPoolStats.init }, r.2.1, r.2.2)
  else
    (none, r.2.1, r.2.2 ++ ["Internal error: cannot create default memory pool"])

/-- A `MemoryPool*` as returned by `default_memory_pool()`: `nullptr` or the address of
`global_state.system_pool`. -/
inductive MemoryPoolPtr
  | nullptr
  | global_system_pool
  deriving DecidableEq, Repr

/-- Source `default_memory_pool()`. -/
def default_memory_pool (maybe_name : Option String) (st : Statics) :
    MemoryPoolPtr × Statics × List String :=
  let r := DefaultBackend maybe_name st
  if r.1 = MemoryPoolBackend.System then
    (MemoryPoolPtr.global_system_pool, r.2.1, r.2.2)
  else
    (MemoryPoolPtr.nullptr, r.2.1,
      r.2.2 ++ ["Internal error: cannot create default memory pool"])

/-- The statics a process can have: not yet initialised, or initialised by a call of
`UserSelectedBackend()` under some value of the configuration variable. -/
def Statics.Reachable (st : Statics) : Prop :=
  st.user_selected_backend = none ∨
    ∃ first_name, st.user_selected_backend = some (arrow.user_selected_backend first_name).1

/-! ## Sequences of pool calls -/

/-- A call a client makes on a pool. `out` is the content of the caller's pointer variable
before `Allocate` stores into it. -/
inductive Op
  | Allocate (size : Int) (out : Nat)
  | Free (buffer : Nat) (size : Int)
  deriving DecidableEq, Repr

/-- The exact (unbounded) change of the byte count the call asks for. -/
def Op.diff : Op → Int
  | Op.Allocate size _ => size
  | Op.Free _ size => -size

/-- The pool after one successful call: `none` when `Allocate` does not return OK or when
`Free` aborts. -/
def Op.apply (env : Env) : Op → Pool → Option Pool
  | Op.Allocate size out, p =>
    let r := Pool.Allocate env size out p
    if r.1.ok then some r.2.2 else none
  | Op.Free buffer size, p => Pool.Free env buffer size p

/-- The pool states observed after each call of a sequence of successful calls. -/
def observations (env : Env) : List Op → Pool → Option (List Pool)
  | [], _ => some []
  | op :: ops, p =>
    match op.apply env p with
    | none => none
    | some q =>
      match observations env ops q with
      | none => none
      | some qs => some (q :: qs)

/-- No statistics update of the sequence leaves the `int64_t` range: every requested change
and every exact new byte count is representable. -/
def noOverflow (env : Env) : List Op → Pool → Bool
  | [], _ => true
  | op :: ops, p =>
    decide (InInt64 op.diff) && decide (InInt64 (p.bytes_allocated + op.diff)) &&
      match op.apply env p with
      | none => true
      | some q => noOverflow env ops q

/-- The sum of the sizes passed to the `Allocate` calls of a sequence. -/
def allocatedSum : List Op → Int
  | [] => 0
  | Op.Allocate size _ :: ops => size + allocatedSum ops
  | Op.Free _ _ :: ops => allocatedSum ops

/-- The sum of the sizes passed to the `Free` calls of a sequence. -/
def freedSum : List Op → Int
  | [] => 0
  | Op.Allocate _ _ :: ops => freedSum ops
  | Op.Free _ size :: ops => size + freedSum ops

/-- The first evaluation of the backend call of an `Allocate` returns OK (`Free` has no
fallible backend call). -/
def Op.backendOk (env : Env) : Op → Pool → Bool
  | Op.Allocate size out, p => (AllocateAligned env size out p.sys).1.ok
  | Op.Free _ _, _ => true

/-- Every `Allocate` of the sequence gets OK from the first evaluation of its backend call
`AllocateAligned`, so none returns through the second evaluation of `RETURN_NOT_OK`. -/
def firstEvaluationOk (env : Env) : List Op → Pool → Bool
  | [], _ => true
  | op :: ops, p =>
    op.backendOk env p &&
      match op.apply env p with
      | none => true
      | some q => firstEvaluationOk env ops q

/-! ## Platforms -/

/-- The C library honours the contract of `posix_memalign`: the result is `0`, `EINVAL` or
`ENOMEM`, and with result `0` it stores an address that is a multiple of the alignment. -/
def Env.PosixMemalign (env : Env) : Prop :=
  ∀ (t : List SysCall) (a n : Nat),
    ((env.posix_memalign t a n).1 = 0 ∨ (env.posix_memalign t a n).1 = EINVAL ∨
      (env.posix_memalign t a n).1 = ENOMEM) ∧
    ((env.posix_memalign t a n).1 = 0 →
      ∃ q, (env.posix_memalign t a n).2 = some q ∧ q % a = 0)

/-- The first free address of a bump allocator after the calls of a trace. -/
def bumpNext (t : List SysCall) : Nat :=
  t.foldl (fun acc c =>
    match c with
    | SysCall.posix_memalign _ n r _ => if r = 0 then acc + 64 * ((n + 63) / 64) else acc
    | _ => acc) 1048576

/-- A bump allocator: it rejects an alignment that is zero or not a multiple of
`sizeof(void*)` with `EINVAL`, refuses requests above `limit` bytes with `ENOMEM`, and
otherwise serves the next free address, rounded up to the alignment. -/
def bumpMemalign (limit : Nat) (t : List SysCall) (a n : Nat) : Int × Option Nat :=
  if a = 0 ∨ a % 8 ≠ 0 then (EINVAL, none)
  else if n > limit then (ENOMEM, none)
  else (0, some (a * ((bumpNext t + (a - 1)) / a)))

/-- A 64-bit glibc platform. -/
def linux64 : Env :=
  { size_t_max := 18446744073709551615,
    zero_size_area := 16448,
    glibc := true,
    posix_memalign := bumpMemalign 140737488355328 }

/-- A 32-bit glibc platform. -/
def linux32 : Env :=
  { size_t_max := 4294967295,
    zero_size_area := 16448,
    glibc := true,
    posix_memalign := bumpMemalign 2147483648 }

/-- A 64-bit platform whose allocator refuses the very first request of the process with
`ENOMEM` and serves the later ones. -/
def flaky64 : Env :=
  { linux64 with
    posix_memalign := fun t a n =>
      if t = [] then (ENOMEM, none) else bumpMemalign 140737488355328 t a n }

/-- A process that has made no library call, with zeroed memory. -/
def sys0 : Sys := { trace := [], mem := fun _ => 0 }

/-- The local `to_alloc` of the test case "alloc oom" of tests/memory_pool_test.cc:
`std::min<uint64_t>(INT64_MAX, SIZE_MAX)` stored in an `int64_t`, then `to_alloc -= 63`. -/
def to_alloc (env : Env) : Int :=
  wrap64 (wrap64 ((min (static_cast_uint64 INT64_MAX)
    (env.size_t_max % 18446744073709551616) : Nat) : Int) - 63)

/-- A 64-bit platform whose allocator refuses the second request of the process with
`ENOMEM` and serves the others. -/
def flakySecond64 : Env :=
  { linux64 with
    posix_memalign := fun t a n =>
      if t.length = 1 then (ENOMEM, none) else bumpMemalign 140737488355328 t a n }

/-- A 64-bit platform whose allocator answers every request with the result code 1, which
is neither 0 nor `ENOMEM` nor `EINVAL`, and stores nothing. -/
def otherCode64 : Env :=
  { linux64 with posix_memalign := fun _ _ _ => (1, none) }

/-- A process holding one block of 100 bytes at 1048576, obtained from `posix_memalign`,
whose bytes are `7, 8, 9, ...` modulo 256; the rest of memory is zero. -/
def sysBlock : Sys :=
  { trace := [SysCall.posix_memalign 64 100 0 (some 1048576)],
    mem := fun a => if 1048576 ≤ a ∧ a < 1048676 then (a - 1048576 + 7) % 256 else 0 }

/-- A pool that has handed out the block of `sysBlock` and counts its 100 bytes. -/
def poolBlock : Pool := { stats_ := ⟨100, 100⟩, sys := sysBlock }

/-! ## Sequences of statistics updates -/

/-- The statistics after a sequence of `UpdateAllocatedBytes` calls, one caller at a
time. -/
def MemoryPoolStats.updates (s : MemoryPoolStats) (deltas : List Int) : MemoryPoolStats :=
  deltas.foldl MemoryPoolStats.UpdateAllocatedBytes s

/-- The values `bytes_allocated()` takes after each call of a sequence of
`UpdateAllocatedBytes` calls. -/
def MemoryPoolStats.bytesHistory : MemoryPoolStats → List Int → List Int
  | _, [] => []
  | s, d :: ds =>
    (s.UpdateAllocatedBytes d).bytes_allocated ::
      MemoryPoolStats.bytesHistory (s.UpdateAllocatedBytes d) ds

/-- No call of the sequence overflows `int64_t`: every argument and every exact new byte
count is representable. -/
def MemoryPoolStats.noOverflow : MemoryPoolStats → List Int → Bool
  | _, [] => true
  | s, d :: ds =>
    decide (InInt64 d) && decide (InInt64 (s.bytes_allocated + d)) &&
      MemoryPoolStats.noOverflow (s.UpdateAllocatedBytes d) ds

/-! ## Machine integer lemmas -/

theorem wrap64_of_inInt64 {x : Int} (h : InInt64 x) : wrap64 x = x := by
  unfold InInt64 INT64_MIN INT64_MAX at h
  unfold wrap64
  omega

theorem inInt64_wrap64 (x : Int) : InInt64 (wrap64 x) := by
  unfold InInt64 INT64_MIN INT64_MAX wrap64
  omega

theorem wrap64_add_wrap64 (a b : Int) : wrap64 (a + wrap64 b) = wrap64 (a + b) := by
  unfold wrap64
  omega

theorem static_cast_uint64_of_nonneg {x : Int} (h0 : 0 ≤ x) (h1 : x ≤ INT64_MAX) :
    (static_cast_uint64 x : Int) = x := by
  unfold INT64_MAX at h1
  unfold static_cast_uint64
  omega

/-! ## Allocate: validation -/

theorem allocate_of_negative (env : Env) (p : Pool) (size : Int) (out : Nat)
    (hneg : size < 0) :
    Pool.Allocate env size out p = (Status.Invalid "negative malloc size", out, p) := by
  unfold Pool.Allocate
  rw [if_pos hneg]

/-- C2: for every pool state and every `size < 0`, `Allocate(size)` returns the status
`Invalid("negative malloc size")`, leaves the caller's pointer and the whole pool state as
they were: no C library call is made (the trace is unchanged) and `bytes_allocated()` and
`max_memory()` keep their values. -/
theorem allocate_negative_invalid (env : Env) (p : Pool) (size : Int) (out : Nat)
    (hneg : size < 0) :
    (Pool.Allocate env size out p).1.code = StatusCode.Invalid ∧
    Pool.Allocate env size out p = (Status.Invalid "negative malloc size", out, p) ∧
    (Pool.Allocate env size out p).2.2.sys.trace = p.sys.trace ∧
    (Pool.Allocate env size out p).2.2.bytes_allocated = p.bytes_allocated ∧
    (Pool.Allocate env size out p).2.2.max_memory = p.max_memory := by
  rw [allocate_of_negative env p size out hneg]
  exact ⟨rfl, rfl, rfl, rfl, rfl⟩

/-- Witness of C2: `Allocate(-1)` on a fresh pool of the 64-bit platform. -/
theorem allocate_negative_invalid_witness :
    (-1 : Int) < 0 ∧
    (Pool.Allocate linux64 (-1) 0 (Pool.fresh sys0)).1.code = StatusCode.Invalid ∧
    (Pool.Allocate linux64 (-1) 0 (Pool.fresh sys0)).2.2.bytes_allocated = 0 :=
  ⟨by decide,
   (allocate_negative_invalid linux64 (Pool.fresh sys0) (-1) 0 (by decide)).1,
   (allocate_negative_invalid linux64 (Pool.fresh sys0) (-1) 0 (by decide)).2.2.2.1⟩

/-- C3: for every pool state and every non-negative `int64_t` size greater than
`std::numeric_limits<size_t>::max()`, `Allocate(size)` returns the status
`CapacityError("malloc size overflows size_t")` and leaves the caller's pointer and the
whole pool state as they were: no C library call is made and `bytes_allocated()` and
`max_memory()` keep their values. -/
theorem allocate_over_limit_capacity_error (env : Env) (p : Pool) (size : Int) (out : Nat)
    (h0 : 0 ≤ size) (h64 : size ≤ INT64_MAX) (hbig : (env.size_t_max : Int) < size) :
    (Pool.Allocate env size out p).1.code = StatusCode.CapacityError ∧
    Pool.Allocate env size out p =
      (Status.CapacityError "malloc size overflows size_t", out, p) ∧
    (Pool.Allocate env size out p).2.2.sys.trace = p.sys.trace ∧
    (Pool.Allocate env size out p).2.2.bytes_allocated = p.bytes_allocated ∧
    (Pool.Allocate env size out p).2.2.max_memory = p.max_memory := by
  have hc := static_cast_uint64_of_nonneg h0 h64
  have hge : static_cast_uint64 size ≥ env.size_t_max := by omega
  have h : Pool.Allocate env size out p =
      (Status.CapacityError "malloc size overflows size_t", out, p) := by
    unfold Pool.Allocate
    rw [if_neg (by omega), if_pos hge]
  rw [h]
  exact ⟨rfl, rfl, rfl, rfl, rfl⟩

/-- Witness of C3: `Allocate(4294967296)` on a fresh pool of the 32-bit platform. -/
theorem allocate_over_limit_capacity_error_witness :
    (0 : Int) ≤ 4294967296 ∧ (4294967296 : Int) ≤ INT64_MAX ∧
    ((linux32.size_t_max : Nat) : Int) < 4294967296 ∧
    (Pool.Allocate linux32 4294967296 0 (Pool.fresh sys0)).1.code =
      StatusCode.CapacityError ∧
    (Pool.Allocate linux32 4294967296 0 (Pool.fresh sys0)).2.2.bytes_allocated = 0 :=
  ⟨by decide, by decide, by decide,
   (allocate_over_limit_capacity_error linux32 (Pool.fresh sys0) 4294967296 0
      (by decide) (by decide) (by decide)).1,
   (allocate_over_limit_capacity_error linux32 (Pool.fresh sys0) 4294967296 0
      (by decide) (by decide) (by decide)).2.2.2.1⟩

/-! ## The allocation backend -/

theorem allocateAligned_zero (env : Env) (out : Nat) (s : Sys) :
    AllocateAligned env 0 out s = (Status.OK, env.zero_size_area, s) := by
  unfold AllocateAligned
  rw [if_pos rfl]

theorem allocateAligned_enomem (env : Env) (size : Int) (out : Nat) (s : Sys)
    (hne : size ≠ 0)
    (hr : (env.posix_memalign s.trace kAlignment (static_cast_size_t env size)).1 = ENOMEM) :
    AllocateAligned env size out s =
      (Status.OutOfMemory ("malloc of size " ++ toString size ++ " failed"),
       (env.posix_memalign s.trace kAlignment (static_cast_size_t env size)).2.getD out,
       { s with trace := s.trace ++
          [SysCall.posix_memalign kAlignment (static_cast_size_t env size)
            (env.posix_memalign s.trace kAlignment (static_cast_size_t env size)).1
            (env.posix_memalign s.trace kAlignment (static_cast_size_t env size)).2] }) := by
  unfold AllocateAligned
  rw [if_neg hne]
  simp only [hr, if_true]

/-- What a successful `AllocateAligned` did, under the `posix_memalign` contract. -/
theorem allocateAligned_ok_cases (env : Env) (hposix : env.PosixMemalign) (size : Int)
    (out : Nat) (s : Sys) (hok : (AllocateAligned env size out s).1.ok = true) :
    (size = 0 ∧ AllocateAligned env size out s = (Status.OK, env.zero_size_area, s)) ∨
    (size ≠ 0 ∧
      env.posix_memalign s.trace kAlignment (static_cast_size_t env size) =
        (0, some (AllocateAligned env size out s).2.1) ∧
      (AllocateAligned env size out s).2.1 % kAlignment = 0 ∧
      (AllocateAligned env size out s).2.2.trace = s.trace ++
        [SysCall.posix_memalign kAlignment (static_cast_size_t env size) 0
          (some (AllocateAligned env size out s).2.1)]) := by
  by_cases hz : size = 0
  · left
    subst hz
    exact ⟨rfl, allocateAligned_zero env out s⟩
  · right
    refine ⟨hz, ?_⟩
    obtain ⟨hcode, hzero⟩ := hposix s.trace kAlignment (static_cast_size_t env size)
    unfold AllocateAligned at hok ⊢
    rw [if_neg hz] at hok ⊢
    generalize env.posix_memalign s.trace kAlignment (static_cast_size_t env size) = r
      at hok hcode hzero ⊢
    obtain ⟨res, stored⟩ := r
    simp only at hok hcode hzero ⊢
    by_cases h1 : res = ENOMEM
    · rw [if_pos h1] at hok
      exact absurd hok (by simp [Status.ok, Status.OutOfMemory])
    · by_cases h2 : res = EINVAL
      · rw [if_neg h1, if_pos h2] at hok
        exact absurd hok (by simp [Status.ok, Status.Invalid])
      · have h0 : res = 0 := by
          rcases hcode with h | h | h
          · exact h
          · exact absurd h h2
          · exact absurd h h1
        obtain ⟨q, hq, hal⟩ := hzero h0
        rw [if_neg h1, if_neg h2]
        subst hq
        subst h0
        exact ⟨rfl, hal, rfl⟩

/-! ## Allocate: backend failure and alignment -/

/-- C4: for every `size > 0` that passes the validation of `Allocate` and that the
allocator cannot satisfy (`posix_memalign` reports `ENOMEM` for it whenever it is asked),
`Allocate(size)` returns the backend's status `OutOfMemory("malloc of size <size> failed")`
and leaves `bytes_allocated()` and `max_memory()` as they were. On a platform whose `size_t`
has between 16 and 64 bits, the size of the test, `min(INT64_MAX, SIZE_MAX) - 63`, is
positive and passes the validation. -/
theorem allocate_backend_out_of_memory (env : Env) (p : Pool) (out : Nat) :
    (∀ size : Int, 0 < size → static_cast_uint64 size < env.size_t_max →
      (∀ t, (env.posix_memalign t kAlignment (static_cast_size_t env size)).1 = ENOMEM) →
      (Pool.Allocate env size out p).1.code = StatusCode.OutOfMemory ∧
      (Pool.Allocate env size out p).1 = (AllocateAligned env size out p.sys).1 ∧
      (Pool.Allocate env size out p).1 =
        Status.OutOfMemory ("malloc of size " ++ toString size ++ " failed") ∧
      (Pool.Allocate env size out p).2.2.stats_ = p.stats_ ∧
      (Pool.Allocate env size out p).2.2.bytes_allocated = p.bytes_allocated ∧
      (Pool.Allocate env size out p).2.2.max_memory = p.max_memory) ∧
    (65535 ≤ env.size_t_max → env.size_t_max ≤ 18446744073709551615 →
      to_alloc env = min INT64_MAX (env.size_t_max : Int) - 63 ∧
      0 < to_alloc env ∧ static_cast_uint64 (to_alloc env) < env.size_t_max) := by
  constructor
  · intro size hpos hlt hfail
    have hne : size ≠ 0 := by omega
    have e1 := allocateAligned_enomem env size out p.sys hne (hfail _)
    have hstat : (Pool.Allocate env size out p).1 =
          Status.OutOfMemory ("malloc of size " ++ toString size ++ " failed") ∧
        (Pool.Allocate env size out p).2.2.stats_ = p.stats_ := by
      unfold Pool.Allocate
      rw [if_neg (by omega), if_neg (by omega)]
      simp only [e1]
      rw [allocateAligned_enomem env size _ _ hne (hfail _)]
      simp [Status.ok, Status.OutOfMemory]
    refine ⟨?_, ?_, hstat.1, hstat.2, ?_, ?_⟩
    · rw [hstat.1]; rfl
    · rw [hstat.1, e1]
    · unfold Pool.bytes_allocated; rw [hstat.2]
    · unfold Pool.max_memory; rw [hstat.2]
  · intro h16 h64
    have hv : to_alloc env = min INT64_MAX (env.size_t_max : Int) - 63 := by
      unfold to_alloc static_cast_uint64 wrap64 INT64_MAX
      omega
    refine ⟨hv, ?_, ?_⟩
    · rw [hv]; unfold INT64_MAX; omega
    · rw [hv]; unfold static_cast_uint64 INT64_MAX; omega

/-- Witness of C4: the size of the test on the 64-bit platform, whose allocator refuses
it. -/
theorem allocate_backend_out_of_memory_witness :
    to_alloc linux64 = 9223372036854775744 ∧
    (Pool.Allocate linux64 (to_alloc linux64) 0 (Pool.fresh sys0)).1.code =
      StatusCode.OutOfMemory ∧
    (Pool.Allocate linux64 (to_alloc linux64) 0 (Pool.fresh sys0)).2.2.bytes_allocated = 0 :=
  have hs := (allocate_backend_out_of_memory linux64 (Pool.fresh sys0) 0).2
    (by decide) (by decide)
  have ha := (allocate_backend_out_of_memory linux64 (Pool.fresh sys0) 0).1
    (to_alloc linux64) hs.2.1 hs.2.2 (by
      intro t
      rw [hs.1]
      rfl)
  ⟨by rw [hs.1]; rfl, ha.1, ha.2.2.2.2.1⟩

theorem allocate_of_backend_ok (env : Env) (p : Pool) (size : Int) (out : Nat)
    (h0 : ¬ size < 0) (h1 : ¬ static_cast_uint64 size ≥ env.size_t_max)
    (hok : (AllocateAligned env size out p.sys).1.ok = true) :
    Pool.Allocate env size out p =
      (Status.OK, (AllocateAligned env size out p.sys).2.1,
        { stats_ := p.stats_.UpdateAllocatedBytes size,
          sys := (AllocateAligned env size out p.sys).2.2 }) := by
  unfold Pool.Allocate
  rw [if_neg h0, if_neg h1]
  simp [hok]

theorem allocate_of_backend_not_ok (env : Env) (p : Pool) (size : Int) (out : Nat)
    (h0 : ¬ size < 0) (h1 : ¬ static_cast_uint64 size ≥ env.size_t_max)
    (hok : (AllocateAligned env size out p.sys).1.ok = false) :
    Pool.Allocate env size out p =
      ((AllocateAligned env size (AllocateAligned env size out p.sys).2.1
          (AllocateAligned env size out p.sys).2.2).1,
       (AllocateAligned env size (AllocateAligned env size out p.sys).2.1
          (AllocateAligned env size out p.sys).2.2).2.1,
       { p with sys := (AllocateAligned env size (AllocateAligned env size out p.sys).2.1
          (AllocateAligned env size out p.sys).2.2).2.2 }) := by
  unfold Pool.Allocate
  rw [if_neg h0, if_neg h1]
  simp [hok]

/-- C5: on a platform whose `posix_memalign` honours its contract and whose
`zero_size_area` is placed as its `alignas(kAlignment)` asks, whenever `Allocate(size)`
returns OK the size is non-negative and the pointer it hands back is a multiple of 64: for
size 0 it is the address of `zero_size_area`; otherwise it is the address `posix_memalign`
stored for the last library call made, a request with alignment 64 that returned 0. -/
theorem allocate_result_aligned (env : Env) (hposix : env.PosixMemalign)
    (hzero : env.zero_size_area % kAlignment = 0) (p : Pool) (size : Int) (out : Nat)
    (hok : (Pool.Allocate env size out p).1.ok = true) :
    0 ≤ size ∧
    (Pool.Allocate env size out p).2.1 % 64 = 0 ∧
    (size = 0 → (Pool.Allocate env size out p).2.1 = env.zero_size_area) ∧
    (size ≠ 0 → (Pool.Allocate env size out p).2.2.sys.trace.getLast? =
      some (SysCall.posix_memalign 64 (static_cast_size_t env size) 0
        (some (Pool.Allocate env size out p).2.1))) := by
  have h0 : ¬ size < 0 := by
    intro hneg
    rw [allocate_of_negative env p size out hneg] at hok
    exact absurd hok (by simp [Status.ok, Status.Invalid])
  have h1 : ¬ static_cast_uint64 size ≥ env.size_t_max := by
    intro hge
    unfold Pool.Allocate at hok
    rw [if_neg h0, if_pos hge] at hok
    exact absurd hok (by simp [Status.ok, Status.CapacityError])
  refine ⟨by omega, ?_⟩
  have key : ∀ (o : Nat) (s : Sys), (AllocateAligned env size o s).1.ok = true →
      (AllocateAligned env size o s).2.1 % 64 = 0 ∧
      (size = 0 → (AllocateAligned env size o s).2.1 = env.zero_size_area) ∧
      (size ≠ 0 → (AllocateAligned env size o s).2.2.trace.getLast? =
        some (SysCall.posix_memalign 64 (static_cast_size_t env size) 0
          (some (AllocateAligned env size o s).2.1))) := by
    intro o s hk
    rcases allocateAligned_ok_cases env hposix size o s hk with ⟨hz, he⟩ | ⟨hz, _, hal, htr⟩
    · rw [he]
      exact ⟨hzero, fun _ => rfl, fun h => absurd hz h⟩
    · refine ⟨hal, fun h => absurd h hz, fun _ => ?_⟩
      rw [htr]
      simp [kAlignment]
  cases hb : (AllocateAligned env size out p.sys).1.ok with
  | true =>
    rw [allocate_of_backend_ok env p size out h0 h1 hb]
    exact key out p.sys hb
  | false =>
    rw [allocate_of_backend_not_ok env p size out h0 h1 hb] at hok ⊢
    exact key _ _ hok

theorem bumpMemalign_contract (limit : Nat) (t : List SysCall) (a n : Nat) :
    ((bumpMemalign limit t a n).1 = 0 ∨ (bumpMemalign limit t a n).1 = EINVAL ∨
      (bumpMemalign limit t a n).1 = ENOMEM) ∧
    ((bumpMemalign limit t a n).1 = 0 →
      ∃ q, (bumpMemalign limit t a n).2 = some q ∧ q % a = 0) := by
  unfold bumpMemalign
  by_cases ha : a = 0 ∨ a % 8 ≠ 0
  · rw [if_pos ha]
    exact ⟨Or.inr (Or.inl rfl), fun h0 => absurd h0 (by decide)⟩
  · rw [if_neg ha]
    by_cases h : n > limit
    · rw [if_pos h]
      exact ⟨Or.inr (Or.inr rfl), fun h0 => absurd h0 (by decide)⟩
    · rw [if_neg h]
      exact ⟨Or.inl rfl, fun _ => ⟨_, rfl, Nat.mul_mod_right _ _⟩⟩

theorem linux64_posixMemalign : linux64.PosixMemalign :=
  fun t a n => bumpMemalign_contract 140737488355328 t a n

theorem flaky64_posixMemalign : flaky64.PosixMemalign := by
  intro t a n
  show ((if t = [] then (ENOMEM, none) else bumpMemalign 140737488355328 t a n).1 = 0 ∨
      (if t = [] then (ENOMEM, none) else bumpMemalign 140737488355328 t a n).1 = EINVAL ∨
      (if t = [] then (ENOMEM, none) else bumpMemalign 140737488355328 t a n).1 = ENOMEM) ∧
    ((if t = [] then (ENOMEM, none) else bumpMemalign 140737488355328 t a n).1 = 0 →
      ∃ q, (if t = [] then (ENOMEM, none) else bumpMemalign 140737488355328 t a n).2 =
        some q ∧ q % a = 0)
  by_cases ht : t = []
  · rw [if_pos ht]
    exact ⟨Or.inr (Or.inr rfl), fun h0 => absurd h0 (by decide)⟩
  · rw [if_neg ht]
    exact bumpMemalign_contract 140737488355328 t a n

/-- Witness of C5: `Allocate(100)` on a fresh pool of the 64-bit platform returns OK and the
address 1048576. -/
theorem allocate_result_aligned_witness :
    linux64.PosixMemalign ∧ linux64.zero_size_area % kAlignment = 0 ∧
    (Pool.Allocate linux64 100 0 (Pool.fresh sys0)).1.ok = true ∧
    (Pool.Allocate linux64 100 0 (Pool.fresh sys0)).2.1 = 1048576 ∧
    (Pool.Allocate linux64 100 0 (Pool.fresh sys0)).2.1 % 64 = 0 :=
  ⟨linux64_posixMemalign, by decide, by decide, by decide,
   (allocate_result_aligned linux64 linux64_posixMemalign (by decide) (Pool.fresh sys0)
      100 0 (by decide)).2.1⟩

/-! ## Zero-size allocations and Free -/

theorem updateAllocatedBytes_zero (s : MemoryPoolStats) (h : InInt64 s.bytes_allocated_) :
    s.UpdateAllocatedBytes 0 = s := by
  unfold MemoryPoolStats.UpdateAllocatedBytes
  simp [wrap64_of_inInt64 h]

/-- C7: on a platform with `SIZE_MAX > 0` whose static `zero_size_area` has a non-null
address, and for a pool whose byte counter holds an `int64_t` value: `Allocate(0)` returns
OK, hands back the address of `zero_size_area` (non-null, the same for every pool state and
every caller), and leaves the whole state as it was, so no C library call is made and
`bytes_allocated()` is unchanged; `Free(zero_size_area, 0)` completes and leaves the whole
state as it was, so `free` is not called on the sentinel and `bytes_allocated()` is
unchanged. -/
theorem zero_size_allocation (env : Env) (p : Pool) (out : Nat)
    (hmax : 0 < env.size_t_max) (hnn : env.zero_size_area ≠ 0)
    (hv : InInt64 p.bytes_allocated) :
    Pool.Allocate env 0 out p = (Status.OK, env.zero_size_area, p) ∧
    (Pool.Allocate env 0 out p).1.ok = true ∧
    (Pool.Allocate env 0 out p).2.1 ≠ 0 ∧
    (Pool.Allocate env 0 out p).2.2.sys.trace = p.sys.trace ∧
    (Pool.Allocate env 0 out p).2.2.bytes_allocated = p.bytes_allocated ∧
    Pool.Free env env.zero_size_area 0 p = some p ∧
    (∀ q, Pool.Free env env.zero_size_area 0 p = some q →
      q.sys.trace = p.sys.trace ∧ q.bytes_allocated = p.bytes_allocated) := by
  have ha : Pool.Allocate env 0 out p = (Status.OK, env.zero_size_area, p) := by
    have h1 : ¬ static_cast_uint64 0 ≥ env.size_t_max := by
      have : static_cast_uint64 0 = 0 := rfl
      omega
    rw [allocate_of_backend_ok env p 0 out (by decide) h1 (by rw [allocateAligned_zero]; rfl),
      allocateAligned_zero, updateAllocatedBytes_zero _ hv]
  have hf : Pool.Free env env.zero_size_area 0 p = some p := by
    unfold Pool.Free DeallocateAligned
    rw [if_pos rfl, if_pos rfl]
    have : wrap64 (-0) = 0 := rfl
    simp only [this, updateAllocatedBytes_zero _ hv]
  refine ⟨ha, ?_, ?_, ?_, ?_, hf, ?_⟩
  · rw [ha]; rfl
  · rw [ha]; exact hnn
  · rw [ha]
  · rw [ha]
  · intro q hq
    rw [hf] at hq
    cases hq
    exact ⟨rfl, rfl⟩

/-- Witness of C7: a fresh pool of the 64-bit platform. -/
theorem zero_size_allocation_witness :
    0 < linux64.size_t_max ∧ linux64.zero_size_area ≠ 0 ∧
    InInt64 (Pool.fresh sys0).bytes_allocated ∧
    Pool.Allocate linux64 0 0 (Pool.fresh sys0) = (Status.OK, 16448, Pool.fresh sys0) ∧
    Pool.Free linux64 16448 0 (Pool.fresh sys0) = some (Pool.fresh sys0) :=
  ⟨by decide, by decide, by decide,
   (zero_size_allocation linux64 (Pool.fresh sys0) 0 (by decide) (by decide) (by decide)).1,
   (zero_size_allocation linux64 (Pool.fresh sys0) 0 (by decide) (by decide)
      (by decide)).2.2.2.2.2.1⟩

/-- Counterexample to C8: `Free(zero_size_area, 1)` on a fresh pool of the 64-bit platform
does not complete: `DeallocateAligned` reaches `std::abort()` through `DCHECK_EQ(size, 0)`,
so no pool state with the byte count lowered by 1 is produced. -/
theorem free_sentinel_nonzero_aborts :
    Pool.Free linux64 linux64.zero_size_area 1 (Pool.fresh sys0) = none ∧
    DeallocateAligned linux64 linux64.zero_size_area 1 sys0 = none ∧
    ¬ ∃ q, Pool.Free linux64 linux64.zero_size_area 1 (Pool.fresh sys0) = some q ∧
      q.bytes_allocated = (Pool.fresh sys0).bytes_allocated - 1 := by
  have h : Pool.Free linux64 linux64.zero_size_area 1 (Pool.fresh sys0) = none := rfl
  refine ⟨h, rfl, ?_⟩
  rintro ⟨q, hq, _⟩
  rw [h] at hq
  cases hq

/-- C8, amended: `Free(ptr, size)` completes exactly when `ptr` is not the address of
`zero_size_area` or `size` is 0 (with the sentinel and a non-zero size it aborts). When it
completes, exactly one statistics update is made, with `-size`, and `bytes_allocated()`
afterwards is the value before minus `size` in `int64_t` arithmetic, which is the exact
difference whenever that difference is representable. -/
theorem free_records_minus_size (env : Env) (p : Pool) (buffer : Nat) (size : Int) :
    (buffer = env.zero_size_area ∧ size ≠ 0 → Pool.Free env buffer size p = none) ∧
    (buffer ≠ env.zero_size_area ∨ size = 0 →
      ∃ q, Pool.Free env buffer size p = some q ∧
        q.stats_ = p.stats_.UpdateAllocatedBytes (wrap64 (-size)) ∧
        q.bytes_allocated = wrap64 (p.bytes_allocated - size) ∧
        (InInt64 (p.bytes_allocated - size) →
          q.bytes_allocated = p.bytes_allocated - size)) := by
  constructor
  · rintro ⟨hb, hs⟩
    unfold Pool.Free DeallocateAligned
    rw [if_pos hb, if_neg hs]
  · intro h
    have hd : ∃ s1, DeallocateAligned env buffer size p.sys = some s1 := by
      unfold DeallocateAligned
      by_cases hb : buffer = env.zero_size_area
      · rw [if_pos hb]
        rcases h with h | h
        · exact absurd hb h
        · rw [if_pos h]; exact ⟨_, rfl⟩
      · rw [if_neg hb]; exact ⟨_, rfl⟩
    obtain ⟨s1, hs1⟩ := hd
    have hbytes : ({ stats_ := p.stats_.UpdateAllocatedBytes (wrap64 (-size)), sys := s1 } :
        Pool).bytes_allocated = wrap64 (p.bytes_allocated - size) := by
      show wrap64 (p.stats_.bytes_allocated_ + wrap64 (-size)) =
        wrap64 (p.stats_.bytes_allocated_ - size)
      rw [wrap64_add_wrap64, sub_eq_add_neg]
    refine ⟨{ stats_ := p.stats_.UpdateAllocatedBytes (wrap64 (-size)), sys := s1 }, ?_, rfl,
      hbytes, ?_⟩
    · unfold Pool.Free
      rw [hs1]
    · intro hr
      rw [hbytes, wrap64_of_inInt64 hr]

/-- Witness of C8, amended: freeing the block at 1048576 with size 100 from a pool that
counts 100 bytes, on the 64-bit platform. -/
theorem free_records_minus_size_witness :
    ∃ q, Pool.Free linux64 1048576 100 { stats_ := ⟨100, 100⟩, sys := sys0 } = some q ∧
      q.bytes_allocated = 0 :=
  have h := (free_records_minus_size linux64 { stats_ := ⟨100, 100⟩, sys := sys0 }
    1048576 100).2 (Or.inl (by decide))
  h.elim fun q hq => ⟨q, hq.1, (hq.2.2.2 (by decide)).trans (by decide)⟩

/-! ## The peak invariant -/

theorem updateAllocatedBytes_max_mono (s : MemoryPoolStats) (d : Int) :
    s.max_memory_ ≤ (s.UpdateAllocatedBytes d).max_memory_ := by
  unfold MemoryPoolStats.UpdateAllocatedBytes
  simp only
  split
  · omega
  · exact le_refl _

theorem updateAllocatedBytes_bytes_inInt64 (s : MemoryPoolStats) (d : Int) :
    InInt64 (s.UpdateAllocatedBytes d).bytes_allocated_ :=
  inInt64_wrap64 _

theorem updateAllocatedBytes_peak (s : MemoryPoolStats) (d : Int)
    (hle : s.bytes_allocated_ ≤ s.max_memory_) (hsum : InInt64 (s.bytes_allocated_ + d)) :
    (s.UpdateAllocatedBytes d).bytes_allocated_ ≤ (s.UpdateAllocatedBytes d).max_memory_ := by
  unfold MemoryPoolStats.UpdateAllocatedBytes
  simp only [wrap64_of_inInt64 hsum]
  split
  · exact le_refl _
  · omega

/-- The statistics after one successful call: untouched, or updated once with the change
the call asks for. -/
theorem apply_stats (env : Env) (op : Op) (p q : Pool) (h : op.apply env p = some q) :
    q.stats_ = p.stats_ ∨
    ∃ d, q.stats_ = p.stats_.UpdateAllocatedBytes d ∧ (InInt64 op.diff → d = op.diff) := by
  cases op with
  | Allocate size out =>
    simp only [Op.apply] at h
    split at h
    · cases h
      by_cases h0 : size < 0
      · left
        rw [allocate_of_negative env p size out h0]
      · by_cases h1 : static_cast_uint64 size ≥ env.size_t_max
        · left
          unfold Pool.Allocate
          rw [if_neg h0, if_pos h1]
        · cases hb : (AllocateAligned env size out p.sys).1.ok with
          | true =>
            right
            rw [allocate_of_backend_ok env p size out h0 h1 hb]
            exact ⟨size, rfl, fun _ => rfl⟩
          | false =>
            left
            rw [allocate_of_backend_not_ok env p size out h0 h1 hb]
    · cases h
  | Free buffer size =>
    simp only [Op.apply, Pool.Free] at h
    split at h
    · cases h
    · cases h
      right
      exact ⟨wrap64 (-size), rfl, fun hd => wrap64_of_inInt64 hd⟩

theorem peak_invariant_from (env : Env) (ops : List Op) :
    ∀ (p : Pool) (obs : List Pool), observations env ops p = some obs →
      List.Chain (fun a b : Pool => a.max_memory ≤ b.max_memory) p obs ∧
      (InInt64 p.bytes_allocated → p.bytes_allocated ≤ p.max_memory →
        noOverflow env ops p = true →
        ∀ q ∈ obs, q.bytes_allocated ≤ q.max_memory) := by
  induction ops with
  | nil =>
    intro p obs h
    simp only [observations] at h
    cases h
    exact ⟨List.Chain.nil, fun _ _ _ q hq => absurd hq (List.not_mem_nil q)⟩
  | cons op ops ih =>
    intro p obs h
    simp only [observations] at h
    cases hq : op.apply env p with
    | none => rw [hq] at h; cases h
    | some q =>
      rw [hq] at h
      simp only at h
      cases hr : observations env ops q with
      | none => rw [hr] at h; cases h
      | some qs =>
        rw [hr] at h
        cases h
        obtain ⟨ihc, ihp⟩ := ih q qs hr
        have hst := apply_stats env op p q hq
        have hmono : p.max_memory ≤ q.max_memory := by
          show p.stats_.max_memory_ ≤ q.stats_.max_memory_
          rcases hst with e | ⟨d, e, _⟩
          · rw [e]
          · rw [e]; exact updateAllocatedBytes_max_mono _ _
        refine ⟨List.Chain.cons hmono ihc, ?_⟩
        intro hin hle hno
        simp only [noOverflow, hq, Bool.and_eq_true, decide_eq_true_eq] at hno
        obtain ⟨⟨hd, hsum⟩, hrest⟩ := hno
        have hq1 : InInt64 q.bytes_allocated ∧ q.bytes_allocated ≤ q.max_memory := by
          show InInt64 q.stats_.bytes_allocated_ ∧
            q.stats_.bytes_allocated_ ≤ q.stats_.max_memory_
          rcases hst with e | ⟨d, e, hdd⟩
          · rw [e]; exact ⟨hin, hle⟩
          · rw [e]
            refine ⟨updateAllocatedBytes_bytes_inInt64 _ _, ?_⟩
            apply updateAllocatedBytes_peak _ _ hle
            rw [hdd hd]
            exact hsum
        intro x hx
        rcases List.mem_cons.1 hx with hx | hx
        · rw [hx]; exact hq1.2
        · exact ihp hq1.1 hq1.2 hrest x hx

/-- C6: for every sequence of successful `Allocate` and `Free` calls on a fresh pool (both
counters 0), with `obs` the pool states observed after each call: `max_memory()` never
decreases from the fresh state through `obs`; and, when no statistics update of the sequence
overflows `int64_t`, every observed state has `max_memory() >= bytes_allocated()`. -/
theorem peak_invariant (env : Env) (s : Sys) (ops : List Op) (obs : List Pool)
    (h : observations env ops (Pool.fresh s) = some obs) :
    List.Chain (fun a b : Pool => a.max_memory ≤ b.max_memory) (Pool.fresh s) obs ∧
    (noOverflow env ops (Pool.fresh s) = true →
      ∀ q ∈ obs, q.max_memory ≥ q.bytes_allocated) := by
  obtain ⟨hc, hp⟩ := peak_invariant_from env ops (Pool.fresh s) obs h
  have h0 : InInt64 (Pool.fresh s).bytes_allocated := by
    show InInt64 0
    decide
  exact ⟨hc, fun hno q hq => hp h0 (le_refl _) hno q hq⟩

/-- Witness of C6: the calls of the test case "normal case" on the 64-bit platform. -/
theorem peak_invariant_witness :
    ∃ obs, observations linux64
        [Op.Allocate 100 0, Op.Allocate 27 0, Op.Free 1048576 100, Op.Free 1048704 27]
        (Pool.fresh sys0) = some obs ∧
      obs.map (fun q => (q.bytes_allocated, q.max_memory)) =
        [(100, 100), (127, 127), (27, 127), (0, 127)] ∧
      List.Chain (fun a b : Pool => a.max_memory ≤ b.max_memory) (Pool.fresh sys0) obs ∧
      ∀ q ∈ obs, q.max_memory ≥ q.bytes_allocated :=
  have h : observations linux64
      [Op.Allocate 100 0, Op.Allocate 27 0, Op.Free 1048576 100, Op.Free 1048704 27]
      (Pool.fresh sys0) = some ((observations linux64
        [Op.Allocate 100 0, Op.Allocate 27 0, Op.Free 1048576 100, Op.Free 1048704 27]
        (Pool.fresh sys0)).getD []) := rfl
  ⟨_, h, by decide, (peak_invariant linux64 sys0 _ _ h).1,
    (peak_invariant linux64 sys0 _ _ h).2 (by decide)⟩

/-! ## Reallocate -/

theorem reallocate_of_backend_ok (env : Env) (p : Pool) (old_size new_size : Int) (ptr : Nat)
    (h0 : ¬ new_size < 0) (h1 : ¬ static_cast_uint64 new_size ≥ env.size_t_max)
    (r : Status × Nat × Sys)
    (hr : ReallocateAligned env old_size new_size ptr p.sys = some r) (hok : r.1.ok = true) :
    Pool.Reallocate env old_size new_size ptr p =
      some (Status.OK, r.2.1,
        { stats_ := p.stats_.UpdateAllocatedBytes (wrap64 (new_size - old_size)),
          sys := r.2.2 }) := by
  unfold Pool.Reallocate
  rw [if_neg h0, if_neg h1, hr]
  simp [hok]

theorem reallocate_of_backend_not_ok (env : Env) (p : Pool) (old_size new_size : Int)
    (ptr : Nat) (h0 : ¬ new_size < 0) (h1 : ¬ static_cast_uint64 new_size ≥ env.size_t_max)
    (r : Status × Nat × Sys)
    (hr : ReallocateAligned env old_size new_size ptr p.sys = some r)
    (hok : r.1.ok = false) :
    Pool.Reallocate env old_size new_size ptr p =
      (ReallocateAligned env old_size new_size r.2.1 r.2.2).map
        (fun r2 => (r2.1, r2.2.1, { p with sys := r2.2.2 })) := by
  unfold Pool.Reallocate
  rw [if_neg h0, if_neg h1, hr]
  simp only [hok]
  cases ReallocateAligned env old_size new_size r.2.1 r.2.2 <;> rfl

/-- C10: `Reallocate(old_size, new_size, ptr)` returns `Invalid("negative realloc size")`
when `new_size < 0` and `CapacityError("realloc overflows size_t")` when the non-negative
`int64_t` `new_size` is greater than `SIZE_MAX`, in both cases leaving the pointer and the
whole pool state as they were; when `new_size` passes the validation and the backend call
`ReallocateAligned` returns a non-OK status each time it is evaluated (`RETURN_NOT_OK`
evaluates it again after a first non-OK status), `Reallocate` returns that status itself and
changes only the process state; and whenever `Reallocate` returns a non-OK status, the
statistics, hence `bytes_allocated()` and `max_memory()`, are as before the call. -/
theorem reallocate_failure_keeps_stats (env : Env) (p : Pool) (old_size new_size : Int)
    (ptr : Nat) :
    (new_size < 0 → Pool.Reallocate env old_size new_size ptr p =
      some (Status.Invalid "negative realloc size", ptr, p)) ∧
    (0 ≤ new_size → new_size ≤ INT64_MAX → (env.size_t_max : Int) < new_size →
      Pool.Reallocate env old_size new_size ptr p =
        some (Status.CapacityError "realloc overflows size_t", ptr, p)) ∧
    (∀ r1 r2 : Status × Nat × Sys, 0 ≤ new_size →
      static_cast_uint64 new_size < env.size_t_max →
      ReallocateAligned env old_size new_size ptr p.sys = some r1 → r1.1.ok = false →
      ReallocateAligned env old_size new_size r1.2.1 r1.2.2 = some r2 → r2.1.ok = false →
      Pool.Reallocate env old_size new_size ptr p =
        some (r2.1, r2.2.1, { p with sys := r2.2.2 })) ∧
    (∀ r : Status × Nat × Pool, Pool.Reallocate env old_size new_size ptr p = some r →
      r.1.ok = false →
      r.2.2.stats_ = p.stats_ ∧ r.2.2.bytes_allocated = p.bytes_allocated ∧
      r.2.2.max_memory = p.max_memory) := by
  refine ⟨?_, ?_, ?_, ?_⟩
  · intro hneg
    unfold Pool.Reallocate
    rw [if_pos hneg]
  · intro h0 h64 hbig
    have hc := static_cast_uint64_of_nonneg h0 h64
    have hge : static_cast_uint64 new_size ≥ env.size_t_max := by omega
    unfold Pool.Reallocate
    rw [if_neg (by omega), if_pos hge]
  · intro r1 r2 h0 h1 hr1 hk1 hr2 _
    rw [reallocate_of_backend_not_ok env p old_size new_size ptr (by omega) (by omega) r1
      hr1 hk1, hr2]
    rfl
  · intro r hr hk
    have hs : r.2.2.stats_ = p.stats_ := by
      by_cases h0 : new_size < 0
      · unfold Pool.Reallocate at hr
        rw [if_pos h0] at hr
        cases hr
        rfl
      · by_cases h1 : static_cast_uint64 new_size ≥ env.size_t_max
        · unfold Pool.Reallocate at hr
          rw [if_neg h0, if_pos h1] at hr
          cases hr
          rfl
        · cases hb : ReallocateAligned env old_size new_size ptr p.sys with
          | none =>
            unfold Pool.Reallocate at hr
            rw [if_neg h0, if_neg h1, hb] at hr
            cases hr
          | some r1 =>
            cases hk1 : r1.1.ok with
            | true =>
              rw [reallocate_of_backend_ok env p old_size new_size ptr h0 h1 r1 hb hk1] at hr
              cases hr
              exact absurd hk (by simp [Status.ok, Status.OK])
            | false =>
              rw [reallocate_of_backend_not_ok env p old_size new_size ptr h0 h1 r1 hb hk1]
                at hr
              cases hb2 : ReallocateAligned env old_size new_size r1.2.1 r1.2.2 with
              | none => rw [hb2] at hr; cases hr
              | some r2 =>
                rw [hb2] at hr
                cases hr
                rfl
    refine ⟨hs, ?_, ?_⟩
    · unfold Pool.bytes_allocated; rw [hs]
    · unfold Pool.max_memory; rw [hs]

/-- Witness of C10: on fresh pools, `Reallocate(0, -1, sentinel)` on the 64-bit platform,
`Reallocate(0, 4294967296, sentinel)` on the 32-bit platform, and
`Reallocate(0, 9223372036854775744, sentinel)` on the 64-bit platform, whose allocator
refuses that size at both evaluations. -/
theorem reallocate_failure_keeps_stats_witness :
    Pool.Reallocate linux64 0 (-1) 16448 (Pool.fresh sys0) =
      some (Status.Invalid "negative realloc size", 16448, Pool.fresh sys0) ∧
    Pool.Reallocate linux32 0 4294967296 16448 (Pool.fresh sys0) =
      some (Status.CapacityError "realloc overflows size_t", 16448, Pool.fresh sys0) ∧
    (Pool.Reallocate linux64 0 9223372036854775744 16448 (Pool.fresh sys0)).map
      (fun r => (r.1.code, r.2.1, r.2.2.bytes_allocated, r.2.2.max_memory)) =
      some (StatusCode.OutOfMemory, 16448, 0, 0) ∧
    (AllocateAligned linux64 9223372036854775744 16448 sys0).1.ok = false ∧
    MemoryPoolStats.init = (Pool.fresh sys0).stats_ :=
  have hc := (reallocate_failure_keeps_stats linux64 (Pool.fresh sys0) 0
      9223372036854775744 16448).2.2.1
    (AllocateAligned linux64 9223372036854775744 16448 sys0)
    (AllocateAligned linux64 9223372036854775744
      (AllocateAligned linux64 9223372036854775744 16448 sys0).2.1
      (AllocateAligned linux64 9223372036854775744 16448 sys0).2.2)
    (by decide) (by decide) rfl (by decide) rfl (by decide)
  ⟨(reallocate_failure_keeps_stats linux64 (Pool.fresh sys0) 0 (-1) 16448).1 (by decide),
   (reallocate_failure_keeps_stats linux32 (Pool.fresh sys0) 0 4294967296 16448).2.1
      (by decide) (by decide) (by decide),
   by rw [hc]; decide,
   by decide,
   ((reallocate_failure_keeps_stats linux64 (Pool.fresh sys0) 0 9223372036854775744
      16448).2.2.2 _ hc (by decide)).1⟩

/-! ## Byte accounting -/

theorem wrap64_wrap64_add (a b : Int) : wrap64 (wrap64 a + b) = wrap64 (a + b) := by
  unfold wrap64
  omega

/-- The byte count after one successful call whose backend call, if any, returned OK at its
first evaluation. -/
theorem apply_bytes (env : Env) (op : Op) (p q : Pool) (h : op.apply env p = some q)
    (hf : op.backendOk env p = true) :
    q.bytes_allocated = wrap64 (p.bytes_allocated + op.diff) := by
  cases op with
  | Allocate size out =>
    simp only [Op.backendOk] at hf
    simp only [Op.apply] at h
    split at h
    · rename_i hk
      cases h
      have h0 : ¬ size < 0 := by
        intro hneg
        rw [allocate_of_negative env p size out hneg] at hk
        exact absurd hk (by simp [Status.ok, Status.Invalid])
      have h1 : ¬ static_cast_uint64 size ≥ env.size_t_max := by
        intro hge
        unfold Pool.Allocate at hk
        rw [if_neg h0, if_pos hge] at hk
        exact absurd hk (by simp [Status.ok, Status.CapacityError])
      rw [allocate_of_backend_ok env p size out h0 h1 hf]
      rfl
    · cases h
  | Free buffer size =>
    simp only [Op.apply, Pool.Free] at h
    split at h
    · cases h
    · cases h
      show wrap64 (p.stats_.bytes_allocated_ + wrap64 (-size)) =
        wrap64 (p.stats_.bytes_allocated_ + -size)
      rw [wrap64_add_wrap64]

/-- Byte accounting when no `Allocate` returns through the second evaluation of
`RETURN_NOT_OK`: after a sequence of successful calls the byte count is the initial count
plus the allocated sizes minus the freed sizes, in `int64_t` arithmetic. -/
theorem byte_accounting_first_evaluation (env : Env) (ops : List Op) :
    ∀ (p : Pool) (obs : List Pool), observations env ops p = some obs →
      firstEvaluationOk env ops p = true → InInt64 p.bytes_allocated →
      (obs.getLastD p).bytes_allocated =
        wrap64 (p.bytes_allocated + (allocatedSum ops - freedSum ops)) := by
  induction ops with
  | nil =>
    intro p obs h _ hin
    simp only [observations] at h
    cases h
    simp only [allocatedSum, freedSum, sub_self, add_zero, List.getLastD]
    exact (wrap64_of_inInt64 hin).symm
  | cons op ops ih =>
    intro p obs h hf _
    simp only [observations] at h
    cases hq : op.apply env p with
    | none => rw [hq] at h; cases h
    | some q =>
      rw [hq] at h
      simp only at h
      cases hr : observations env ops q with
      | none => rw [hr] at h; cases h
      | some qs =>
        rw [hr] at h
        cases h
        simp only [firstEvaluationOk, hq, Bool.and_eq_true] at hf
        have hb := apply_bytes env op p q hq hf.1
        have hi := ih q qs hr hf.2 (by rw [hb]; exact inInt64_wrap64 _)
        have hl : (q :: qs).getLastD p = qs.getLastD q := by
          cases qs <;> simp [List.getLastD, List.getLast_cons]
        rw [hl, hi, hb, wrap64_wrap64_add]
        congr 1
        cases op <;> simp only [Op.diff, allocatedSum, freedSum] <;> ring

/-! ## Successful calls that are not counted -/

/-- C1 at a failing input: on the platform whose allocator refuses the first request and
serves the next one, `Allocate(100)` on a fresh pool returns OK and the 64-byte aligned
block at 1048576 after two `posix_memalign` calls, yet `bytes_allocated()` stays 0; after
the further successful `Allocate(27)` it is 27, not 127, and after the two `Free` calls of
the test it is -100, not 0. -/
theorem allocate_ok_on_second_evaluation_not_counted :
    (Pool.Allocate flaky64 100 0 (Pool.fresh sys0)).1 = Status.OK ∧
    (Pool.Allocate flaky64 100 0 (Pool.fresh sys0)).2.1 = 1048576 ∧
    (Pool.Allocate flaky64 100 0 (Pool.fresh sys0)).2.2.sys.trace =
      [SysCall.posix_memalign 64 100 ENOMEM none,
       SysCall.posix_memalign 64 100 0 (some 1048576)] ∧
    (Pool.Allocate flaky64 100 0 (Pool.fresh sys0)).2.2.bytes_allocated = 0 ∧
    (observations flaky64
      [Op.Allocate 100 0, Op.Allocate 27 0, Op.Free 1048576 100, Op.Free 1048704 27]
      (Pool.fresh sys0)).map (List.map Pool.bytes_allocated) = some [0, 27, -73, -100] ∧
    (observations linux64
      [Op.Allocate 100 0, Op.Allocate 27 0, Op.Free 1048576 100, Op.Free 1048704 27]
      (Pool.fresh sys0)).map (List.map Pool.bytes_allocated) = some [100, 127, 27, 0] := by
  refine ⟨?_, ?_, ?_, ?_, ?_, ?_⟩ <;> decide

/-- C9 at a failing input: on the platform whose allocator refuses the first request and
serves the next one, `Reallocate(0, 100, sentinel)` on a fresh pool returns OK and rebinds
the pointer to the block at 1048576, yet no statistics update is made:
`bytes_allocated()` and `max_memory()` stay 0 instead of becoming 100. -/
theorem reallocate_ok_on_second_evaluation_not_counted :
    (Pool.Reallocate flaky64 0 100 flaky64.zero_size_area (Pool.fresh sys0)).map
      (fun r => (r.1, r.2.1, r.2.2.bytes_allocated, r.2.2.max_memory, r.2.2.sys.trace)) =
      some (Status.OK, 1048576, 0, 0,
        [SysCall.posix_memalign 64 100 ENOMEM none,
         SysCall.posix_memalign 64 100 0 (some 1048576)]) := by
  decide

/-! ## ReallocateAligned: the paths of a block that is not the sentinel -/

theorem reallocateAligned_of_alloc_not_ok (env : Env) (old_size new_size : Int) (ptr : Nat)
    (s : Sys) (hp : ptr ≠ env.zero_size_area) (hn : new_size ≠ 0)
    (hk : (AllocateAligned env new_size 0 s).1.ok = false) :
    ReallocateAligned env old_size new_size ptr s =
      some ((AllocateAligned env new_size (AllocateAligned env new_size 0 s).2.1
              (AllocateAligned env new_size 0 s).2.2).1,
            ptr,
            (AllocateAligned env new_size (AllocateAligned env new_size 0 s).2.1
              (AllocateAligned env new_size 0 s).2.2).2.2) := by
  unfold ReallocateAligned
  simp only [if_neg hp, if_neg hn, hk]
  rfl

theorem reallocateAligned_of_alloc_ok (env : Env) (old_size new_size : Int) (ptr : Nat)
    (s : Sys) (hp : ptr ≠ env.zero_size_area) (hn : new_size ≠ 0)
    (hk : (AllocateAligned env new_size 0 s).1.ok = true)
    (hout : (AllocateAligned env new_size 0 s).2.1 ≠ 0) :
    ReallocateAligned env old_size new_size ptr s =
      some (Status.OK, (AllocateAligned env new_size 0 s).2.1,
        (((AllocateAligned env new_size 0 s).2.2.memcpy (AllocateAligned env new_size 0 s).2.1
          ptr (static_cast_size_t env (min new_size old_size))).free ptr)) := by
  unfold ReallocateAligned
  simp only [if_neg hp, if_neg hn, hk, if_neg hout]
  rfl

/-- Source `AllocateAligned` only appends `posix_memalign` calls to the trace and leaves the
bytes of memory as they are. -/
theorem allocateAligned_frame (env : Env) (size : Int) (out : Nat) (s : Sys) :
    (AllocateAligned env size out s).2.2.mem = s.mem ∧
    ∃ l, (AllocateAligned env size out s).2.2.trace = s.trace ++ l ∧
      ∀ c ∈ l, ∃ a n r st, c = SysCall.posix_memalign a n r st := by
  unfold AllocateAligned
  by_cases hz : size = 0
  · rw [if_pos hz]
    exact ⟨rfl, [], by simp, fun c hc => absurd hc (List.not_mem_nil c)⟩
  · rw [if_neg hz]
    simp only
    split
    · exact ⟨rfl, _, rfl, fun c hc => by
        rw [List.mem_singleton] at hc; exact ⟨_, _, _, _, hc⟩⟩
    · split
      · exact ⟨rfl, _, rfl, fun c hc => by
          rw [List.mem_singleton] at hc; exact ⟨_, _, _, _, hc⟩⟩
      · exact ⟨rfl, _, rfl, fun c hc => by
          rw [List.mem_singleton] at hc; exact ⟨_, _, _, _, hc⟩⟩

/-- The status of `AllocateAligned` for a non-zero size is determined by the result code of
its `posix_memalign` call and by the size. -/
theorem allocateAligned_status (env : Env) (size : Int) (out : Nat) (s : Sys)
    (hne : size ≠ 0) :
    (AllocateAligned env size out s).1 =
      if (env.posix_memalign s.trace kAlignment (static_cast_size_t env size)).1 = ENOMEM then
        Status.OutOfMemory ("malloc of size " ++ toString size ++ " failed")
      else if (env.posix_memalign s.trace kAlignment (static_cast_size_t env size)).1 = EINVAL
      then Status.Invalid ("invalid alignment parameter: " ++ toString kAlignment)
      else Status.OK := by
  unfold AllocateAligned
  rw [if_neg hne]
  simp only
  split
  · rfl
  · split <;> rfl

/-- Failure of both evaluations: for a pointer that is not the sentinel and `new_size > 0`,
when `AllocateAligned` returns a non-OK status at its first evaluation and at the second
one that `RETURN_NOT_OK` makes, `ReallocateAligned` completes and returns
that non-OK status of the backend; the caller's pointer holds the original address; the
bytes of memory are unchanged; and the only library calls made are `posix_memalign` calls,
so the original block is not passed to `free` and nothing is copied. When `posix_memalign`
gives the same result code at both evaluations the returned status is the one of the first
failed allocation. -/
theorem reallocateAligned_failure_atomic (env : Env) (old_size new_size : Int) (ptr : Nat)
    (s : Sys) (hp : ptr ≠ env.zero_size_area) (hpos : 0 < new_size)
    (hfail1 : (AllocateAligned env new_size 0 s).1.ok = false)
    (hfail2 : (AllocateAligned env new_size (AllocateAligned env new_size 0 s).2.1
      (AllocateAligned env new_size 0 s).2.2).1.ok = false) :
    ∃ r, ReallocateAligned env old_size new_size ptr s = some r ∧
      r.1.ok = false ∧
      r.1 = (AllocateAligned env new_size (AllocateAligned env new_size 0 s).2.1
        (AllocateAligned env new_size 0 s).2.2).1 ∧
      ((env.posix_memalign (AllocateAligned env new_size 0 s).2.2.trace kAlignment
          (static_cast_size_t env new_size)).1 =
        (env.posix_memalign s.trace kAlignment (static_cast_size_t env new_size)).1 →
        r.1 = (AllocateAligned env new_size 0 s).1) ∧
      r.2.1 = ptr ∧
      r.2.2.mem = s.mem ∧
      (∃ l, r.2.2.trace = s.trace ++ l ∧
        (∀ c ∈ l, ∃ a n res st, c = SysCall.posix_memalign a n res st) ∧
        SysCall.free ptr ∉ l ∧ ∀ dst n, SysCall.memcpy dst ptr n ∉ l) := by
  have hn : new_size ≠ 0 := by omega
  refine ⟨_, reallocateAligned_of_alloc_not_ok env old_size new_size ptr s hp hn hfail1,
    hfail2, rfl, ?_, rfl, ?_, ?_⟩
  · intro hsame
    simp only
    rw [allocateAligned_status env new_size _ _ hn, allocateAligned_status env new_size _ _ hn,
      hsame]
  · obtain ⟨h1, _⟩ := allocateAligned_frame env new_size 0 s
    obtain ⟨h2, _⟩ := allocateAligned_frame env new_size (AllocateAligned env new_size 0 s).2.1
      (AllocateAligned env new_size 0 s).2.2
    simp only
    rw [h2, h1]
  · obtain ⟨_, l1, e1, hl1⟩ := allocateAligned_frame env new_size 0 s
    obtain ⟨_, l2, e2, hl2⟩ := allocateAligned_frame env new_size
      (AllocateAligned env new_size 0 s).2.1 (AllocateAligned env new_size 0 s).2.2
    have hall : ∀ c ∈ l1 ++ l2, ∃ a n res st, c = SysCall.posix_memalign a n res st := by
      intro c hc
      rcases List.mem_append.1 hc with h | h
      · exact hl1 c h
      · exact hl2 c h
    refine ⟨l1 ++ l2, ?_, hall, ?_, ?_⟩
    · simp only
      rw [e2, e1, List.append_assoc]
    · intro hmem
      obtain ⟨a, n, res, st, hc⟩ := hall _ hmem
      cases hc
    · intro dst n hmem
      obtain ⟨a, n', res, st, hc⟩ := hall _ hmem
      cases hc

/-- An instance of the failure of both evaluations: growing the block of `sysBlock` to
9223372036854775744 bytes on the 64-bit platform, whose allocator refuses that size each
time. -/
theorem reallocateAligned_failure_atomic_witness :
    (1048576 : Nat) ≠ linux64.zero_size_area ∧ (0 : Int) < 9223372036854775744 ∧
    ∃ r, ReallocateAligned linux64 100 9223372036854775744 1048576 sysBlock = some r ∧
      r.1.code = StatusCode.OutOfMemory ∧ r.2.1 = 1048576 ∧ r.2.2.mem = sysBlock.mem ∧
      r.2.2.trace = sysBlock.trace ++
        [SysCall.posix_memalign 64 9223372036854775744 ENOMEM none,
         SysCall.posix_memalign 64 9223372036854775744 ENOMEM none] :=
  have h := reallocateAligned_failure_atomic linux64 100 9223372036854775744 1048576 sysBlock
    (by decide) (by decide) (by decide) (by decide)
  ⟨by decide, by decide,
    h.elim fun r hr => ⟨r, hr.1, by
      have e : some r = ReallocateAligned linux64 100 9223372036854775744 1048576 sysBlock :=
        hr.1.symm
      have hd : (ReallocateAligned linux64 100 9223372036854775744 1048576 sysBlock).map
          (fun r => (r.1.code, r.2.1, r.2.2.trace)) =
          some (StatusCode.OutOfMemory, 1048576, sysBlock.trace ++
            [SysCall.posix_memalign 64 9223372036854775744 ENOMEM none,
             SysCall.posix_memalign 64 9223372036854775744 ENOMEM none]) := by decide
      rw [← e] at hd
      simp only [Option.map_some', Option.some.injEq, Prod.mk.injEq] at hd
      exact ⟨hd.1, hd.2.1, hr.2.2.2.2.2.1, hd.2.2⟩⟩⟩

/-- What `ReallocateAligned` does to a block that is not the sentinel when `new_size` is not
0 and the first evaluation of the allocation returns OK with a non-null block: the pointer
is rebound to the new block, whose first `min(new_size, old_size)` bytes are the bytes the
old block held, and the library calls made after the allocation are one `memcpy` and one
`free` of the old block. -/
theorem reallocateAligned_moves_block (env : Env) (old_size new_size : Int) (ptr : Nat)
    (s : Sys) (hp : ptr ≠ env.zero_size_area) (hn : new_size ≠ 0)
    (hk : (AllocateAligned env new_size 0 s).1.ok = true)
    (hout : (AllocateAligned env new_size 0 s).2.1 ≠ 0) :
    ∃ r, ReallocateAligned env old_size new_size ptr s = some r ∧
      r.1 = Status.OK ∧
      r.2.1 = (AllocateAligned env new_size 0 s).2.1 ∧
      (∀ i, i < static_cast_size_t env (min new_size old_size) →
        r.2.2.mem (r.2.1 + i) = s.mem (ptr + i)) ∧
      r.2.2.trace = (AllocateAligned env new_size 0 s).2.2.trace ++
        [SysCall.memcpy r.2.1 ptr (static_cast_size_t env (min new_size old_size)),
         SysCall.free ptr] := by
  refine ⟨_, reallocateAligned_of_alloc_ok env old_size new_size ptr s hp hn hk hout,
    rfl, rfl, ?_, ?_⟩
  · intro i hi
    have hm := (allocateAligned_frame env new_size 0 s).1
    show (if _ then _ else _) = _
    rw [if_pos ⟨Nat.le_add_right _ _, Nat.add_lt_add_left hi _⟩, hm, Nat.add_sub_cancel_left]
  · simp [Sys.free, Sys.memcpy]

/-- C12 at a failing input: on the platform whose allocator refuses the second request of
the process and serves the others, a pool has handed out the 100-byte block at 1048576
(`Allocate(100)` on a fresh pool returns it). `Reallocate(100, 200, &ptr)` then returns OK
and counts 200 bytes, but the pointer still holds 1048576: the library calls made are a
refused `posix_memalign` and one that stores 1048704, with no `memcpy` and no `free`, so the
pointer is not rebound, nothing is copied and the old block is not released. -/
theorem reallocate_ok_without_moving_block :
    (Pool.Allocate flakySecond64 100 0 (Pool.fresh sys0)).1 = Status.OK ∧
    (Pool.Allocate flakySecond64 100 0 (Pool.fresh sys0)).2.1 = 1048576 ∧
    (Pool.Allocate flakySecond64 100 0 (Pool.fresh sys0)).2.2.sys.trace = poolBlock.sys.trace ∧
    (Pool.Allocate flakySecond64 100 0 (Pool.fresh sys0)).2.2.stats_ = poolBlock.stats_ ∧
    (Pool.Reallocate flakySecond64 100 200 1048576 poolBlock).map
      (fun r => (r.1, r.2.1, r.2.2.bytes_allocated, r.2.2.sys.trace)) =
      some (Status.OK, 1048576, 200,
        [SysCall.posix_memalign 64 100 0 (some 1048576),
         SysCall.posix_memalign 64 200 ENOMEM none,
         SysCall.posix_memalign 64 200 0 (some 1048704)]) ∧
    (ReallocateAligned flakySecond64 100 200 1048576 sysBlock).map
      (fun r => (r.1, r.2.1)) = some (Status.OK, 1048576) ∧
    (ReallocateAligned linux64 100 200 1048576 sysBlock).map
      (fun r => (r.1, r.2.1, r.2.2.trace)) =
      some (Status.OK, 1048704,
        [SysCall.posix_memalign 64 100 0 (some 1048576),
         SysCall.posix_memalign 64 200 0 (some 1048704),
         SysCall.memcpy 1048704 1048576 100,
         SysCall.free 1048576]) := by
  refine ⟨?_, ?_, ?_, ?_, ?_, ?_, ?_⟩ <;> decide

/-- C13: on a platform with `SIZE_MAX > 0`, for every pointer that is not the sentinel and
every `old_size`, `Reallocate(old_size, 0, ptr)` completes with status OK, makes exactly one
library call, `free(ptr)`, rebinds the pointer to the address of `zero_size_area`, and makes
one statistics update with `0 - old_size`: `bytes_allocated()` afterwards is the value
before minus `old_size` in `int64_t` arithmetic, the exact difference whenever that is
representable. -/
theorem reallocate_to_zero (env : Env) (p : Pool) (old_size : Int) (ptr : Nat)
    (hmax : 0 < env.size_t_max) (hp : ptr ≠ env.zero_size_area) :
    ∃ r, Pool.Reallocate env old_size 0 ptr p = some r ∧
      r.1 = Status.OK ∧
      r.2.1 = env.zero_size_area ∧
      r.2.2.sys.trace = p.sys.trace ++ [SysCall.free ptr] ∧
      r.2.2.sys.mem = p.sys.mem ∧
      r.2.2.stats_ = p.stats_.UpdateAllocatedBytes (wrap64 (0 - old_size)) ∧
      r.2.2.bytes_allocated = wrap64 (p.bytes_allocated - old_size) ∧
      (InInt64 (p.bytes_allocated - old_size) →
        r.2.2.bytes_allocated = p.bytes_allocated - old_size) := by
  have hra : ReallocateAligned env old_size 0 ptr p.sys =
      some (Status.OK, env.zero_size_area, p.sys.free ptr) := by
    unfold ReallocateAligned DeallocateAligned
    simp only [if_neg hp, if_true]
  have h1 : ¬ static_cast_uint64 0 ≥ env.size_t_max := by
    have : static_cast_uint64 0 = 0 := rfl
    omega
  have hr := reallocate_of_backend_ok env p old_size 0 ptr (by decide) h1 _ hra rfl
  have hbytes : wrap64 (p.stats_.bytes_allocated_ + wrap64 (0 - old_size)) =
      wrap64 (p.bytes_allocated - old_size) := by
    rw [wrap64_add_wrap64]
    show wrap64 _ = wrap64 (p.stats_.bytes_allocated_ - old_size)
    congr 1
    ring
  refine ⟨_, hr, rfl, rfl, rfl, rfl, rfl, hbytes, ?_⟩
  intro hin
  show wrap64 (p.stats_.bytes_allocated_ + wrap64 (0 - old_size)) = _
  rw [hbytes, wrap64_of_inInt64 hin]

/-- Witness of C13: `Reallocate(100, 0, &ptr)` on the pool holding the 100-byte block at
1048576, on the 64-bit platform. -/
theorem reallocate_to_zero_witness :
    0 < linux64.size_t_max ∧ (1048576 : Nat) ≠ linux64.zero_size_area ∧
    ∃ r, Pool.Reallocate linux64 100 0 1048576 poolBlock = some r ∧
      r.1 = Status.OK ∧ r.2.1 = 16448 ∧
      r.2.2.sys.trace = poolBlock.sys.trace ++ [SysCall.free 1048576] ∧
      r.2.2.bytes_allocated = 0 :=
  have h := reallocate_to_zero linux64 poolBlock 100 1048576 (by decide) (by decide)
  ⟨by decide, by decide,
    h.elim fun r hr => ⟨r, hr.1, hr.2.1, hr.2.2.1, hr.2.2.2.1,
      (hr.2.2.2.2.2.2.2 (by decide)).trans (by decide)⟩⟩

/-! ## Backend selection -/

theorem user_selected_backend_system :
    user_selected_backend (some "system") = (some MemoryPoolBackend.System, []) := by
  decide

theorem user_selected_backend_unsupported (name : String) (h0 : name ≠ "")
    (h1 : name ≠ "system") :
    user_selected_backend (some name) = (none, [unsupported_backend name]) := by
  simp [user_selected_backend, SupportedBackends, List.find?, h0, h1]

theorem user_selected_backend_cases (maybe_name : Option String) :
    (user_selected_backend maybe_name).1 = none ∨
    (user_selected_backend maybe_name).1 = some MemoryPoolBackend.System := by
  cases maybe_name with
  | none => exact Or.inl rfl
  | some name =>
    by_cases h0 : name = ""
    · left
      simp [user_selected_backend, h0]
    · by_cases h1 : name = "system"
      · right
        rw [h1, user_selected_backend_system]
      · left
        rw [user_selected_backend_unsupported name h0 h1]

theorem userSelectedBackend_cases (maybe_name : Option String) (st : Statics)
    (hst : st.Reachable) :
    ((UserSelectedBackend maybe_name st).1 = none ∨
      (UserSelectedBackend maybe_name st).1 = some MemoryPoolBackend.System) ∧
    (UserSelectedBackend maybe_name st).2.1.Reachable := by
  unfold UserSelectedBackend
  rcases hst with h | ⟨g, h⟩
  · rw [h]
    exact ⟨user_selected_backend_cases maybe_name, Or.inr ⟨maybe_name, rfl⟩⟩
  · rw [h]
    exact ⟨user_selected_backend_cases g, Or.inr ⟨g, h⟩⟩

theorem defaultBackend_system (maybe_name : Option String) (st : Statics)
    (hst : st.Reachable) :
    (DefaultBackend maybe_name st).1 = MemoryPoolBackend.System ∧
    (DefaultBackend maybe_name st).2.1.Reachable := by
  obtain ⟨hc, hr⟩ := userSelectedBackend_cases maybe_name st hst
  unfold DefaultBackend
  simp only
  rcases hc with h | h
  · rw [h]
    exact ⟨rfl, hr⟩
  · rw [h]
    exact ⟨rfl, hr⟩

/-- C14: in a process whose static `user_selected_backend` is not yet initialised or was
initialised by an earlier call under any value of the configuration variable, and for every
value the variable has now (unset, empty, "system" or any other string): `DefaultBackend()`
returns `MemoryPoolBackend::System`; `default_memory_pool()` returns the address of
`global_state.system_pool`, not `nullptr`; `CreateDefault()` returns a pool, not `nullptr`,
whose `backend_name()` is "system" and whose counters are 0; neither of them writes the
line of the `default:` branch; and the statics stay of that kind. -/
theorem default_backend_fallback (maybe_name : Option String) (st : Statics)
    (hst : st.Reachable) :
    (DefaultBackend maybe_name st).1 = MemoryPoolBackend.System ∧
    (default_memory_pool maybe_name st).1 = MemoryPoolPtr.global_system_pool ∧
    (default_memory_pool maybe_name st).1 ≠ MemoryPoolPtr.nullptr ∧
    (∃ pool, (CreateDefault maybe_name st).1 = some pool ∧ pool.backend_name = "system" ∧
      pool.stats_ = MemoryPoolStats.init) ∧
    (default_memory_pool maybe_name st).2.2 = (DefaultBackend maybe_name st).2.2 ∧
    (CreateDefault maybe_name st).2.2 = (DefaultBackend maybe_name st).2.2 ∧
    (default_memory_pool maybe_name st).2.1.Reachable ∧
    (CreateDefault maybe_name st).2.1.Reachable := by
  obtain ⟨hd, hr⟩ := defaultBackend_system maybe_name st hst
  have h1 : default_memory_pool maybe_name st =
      (MemoryPoolPtr.global_system_pool, (DefaultBackend maybe_name st).2.1,
        (DefaultBackend maybe_name st).2.2) := by
    unfold default_memory_pool
    simp only [hd, if_true]
  have h2 : CreateDefault maybe_name st =
      (some { stats_ := MemoryPoolStats.init }, (DefaultBackend maybe_name st).2.1,
        (DefaultBackend maybe_name st).2.2) := by
    unfold CreateDefault
    simp only [hd, if_true]
  rw [h1, h2]
  exact ⟨hd, rfl, fun h => MemoryPoolPtr.noConfusion h, ⟨_, rfl, rfl, rfl⟩, rfl, rfl, hr, hr⟩

/-- Witness of C14: the first call in a process whose configuration variable holds the
unsupported name "jemalloc". -/
theorem default_backend_fallback_witness :
    Statics.Reachable { user_selected_backend := none } ∧
    default_memory_pool (some "jemalloc") { user_selected_backend := none } =
      (MemoryPoolPtr.global_system_pool, { user_selected_backend := some none },
        ["Unsupported backend 'jemalloc' specified in ARROW_DEFAULT_MEMORY_POOL"]) ∧
    (DefaultBackend (some "jemalloc") { user_selected_backend := none }).1 =
      MemoryPoolBackend.System :=
  ⟨Or.inl rfl, by decide,
    (default_backend_fallback (some "jemalloc") { user_selected_backend := none }
      (Or.inl rfl)).1⟩

/-- C19: the lambda behind `UserSelectedBackend()` selects no backend when the variable is
unset or empty; for a non-empty value it selects the backend of the first registry entry
whose name is that very string, so `System` exactly when the value is "system" and none
otherwise ("System" selects none); the first call of `UserSelectedBackend()` returns what
the lambda selects; and `DefaultBackend()` returns the selected backend if there is one and
the backend of the first registry entry otherwise. -/
theorem override_resolution (maybe_name : Option String) (st : Statics) :
    (user_selected_backend none).1 = none ∧
    (user_selected_backend (some "")).1 = none ∧
    (∀ name : String, name ≠ "" →
      (user_selected_backend (some name)).1 =
        (SupportedBackends.find? (fun entry => decide (entry.name = name))).map
          (fun entry => entry.backend) ∧
      ((user_selected_backend (some name)).1 = some MemoryPoolBackend.System ↔
        name = "system") ∧
      (name ≠ "system" → (user_selected_backend (some name)).1 = none)) ∧
    (user_selected_backend (some "System")).1 = none ∧
    (UserSelectedBackend maybe_name { user_selected_backend := none }).1 =
      (user_selected_backend maybe_name).1 ∧
    (∀ first, SupportedBackends.head? = some first →
      (DefaultBackend maybe_name st).1 =
        ((UserSelectedBackend maybe_name st).1).getD first.backend) := by
  refine ⟨rfl, by decide, ?_, by decide, rfl, ?_⟩
  · intro name h0
    by_cases h1 : name = "system"
    · subst h1
      exact ⟨by decide, by decide, fun h => absurd rfl h⟩
    · rw [user_selected_backend_unsupported name h0 h1]
      refine ⟨?_, ?_, fun _ => rfl⟩
      · have : ¬ ("system" = name) := fun h => h1 h.symm
        simp [SupportedBackends, List.find?, this]
      · constructor
        · intro h; cases h
        · intro h; exact absurd h h1
  · intro first hf
    have : first = ⟨"system", MemoryPoolBackend.System⟩ := by
      simp [SupportedBackends] at hf
      exact hf.symm
    subst this
    unfold DefaultBackend
    simp only
    cases (UserSelectedBackend maybe_name st).1 <;> rfl

/-- Witness of C19: the values "jemalloc" and "system". -/
theorem override_resolution_witness :
    ("jemalloc" : String) ≠ "" ∧ ("jemalloc" : String) ≠ "system" ∧
    (user_selected_backend (some "jemalloc")).1 = none ∧
    (("system" : String) ≠ "" ∧
      ((user_selected_backend (some "system")).1 = some MemoryPoolBackend.System ↔
        ("system" : String) = "system")) ∧
    (DefaultBackend (some "jemalloc") { user_selected_backend := none }).1 =
      (Option.getD (none : Option MemoryPoolBackend) MemoryPoolBackend.System) :=
  ⟨by decide, by decide,
    ((override_resolution none { user_selected_backend := none }).2.2.1 "jemalloc"
      (by decide)).2.2 (by decide),
    ⟨by decide, ((override_resolution none { user_selected_backend := none }).2.2.1 "system"
      (by decide)).2.1⟩,
    (override_resolution (some "jemalloc") { user_selected_backend := none }).2.2.2.2.2
      ⟨"system", MemoryPoolBackend.System⟩ rfl⟩

/-! ## Peak tracking -/

theorem updateAllocatedBytes_eq_max (s : MemoryPoolStats) (d : Int)
    (hle : s.bytes_allocated_ ≤ s.max_memory_) (hsum : InInt64 (s.bytes_allocated_ + d)) :
    s.UpdateAllocatedBytes d =
      { bytes_allocated_ := s.bytes_allocated_ + d,
        max_memory_ := max s.max_memory_ (s.bytes_allocated_ + d) } := by
  unfold MemoryPoolStats.UpdateAllocatedBytes
  simp only [wrap64_of_inInt64 hsum]
  congr 1
  split
  · rename_i h
    exact (max_eq_right (le_of_lt h.2)).symm
  · rename_i h
    have : s.bytes_allocated_ + d ≤ s.max_memory_ := by
      by_cases hd : d > 0
      · have := fun hgt => h ⟨hd, hgt⟩
        omega
      · omega
    exact (max_eq_left this).symm

theorem updates_peak (ds : List Int) :
    ∀ s : MemoryPoolStats, s.bytes_allocated_ ≤ s.max_memory_ → s.noOverflow ds = true →
      (s.updates ds).bytes_allocated_ ≤ (s.updates ds).max_memory_ ∧
      (s.updates ds).max_memory_ = (s.bytesHistory ds).foldl max s.max_memory_ := by
  induction ds with
  | nil =>
    intro s hle _
    exact ⟨hle, rfl⟩
  | cons d ds ih =>
    intro s hle hno
    simp only [MemoryPoolStats.noOverflow, Bool.and_eq_true, decide_eq_true_eq] at hno
    obtain ⟨⟨_, hsum⟩, hrest⟩ := hno
    have he := updateAllocatedBytes_eq_max s d hle hsum
    have hle1 : (s.UpdateAllocatedBytes d).bytes_allocated_ ≤
        (s.UpdateAllocatedBytes d).max_memory_ := by
      rw [he]
      exact le_max_right _ _
    obtain ⟨h1, h2⟩ := ih (s.UpdateAllocatedBytes d) hle1 hrest
    refine ⟨h1, ?_⟩
    show ((s.UpdateAllocatedBytes d).updates ds).max_memory_ = _
    rw [h2]
    simp only [MemoryPoolStats.bytesHistory, List.foldl_cons]
    congr 1
    rw [he]
    rfl

/-- C15: let the statistics be those reached from the initial state (0, 0) by a sequence of
`UpdateAllocatedBytes` calls, one caller at a time, none of which overflows `int64_t`. Then
for every `int64_t` delta whose addition does not overflow, `UpdateAllocatedBytes(delta)`
sets `bytes_allocated` to old + delta and `max_memory` to
max(old `max_memory`, old + delta); and `max_memory()` is the greatest of 0 and the values
`bytes_allocated()` took after each call. -/
theorem peak_tracking_step (deltas : List Int)
    (hno : MemoryPoolStats.init.noOverflow deltas = true) :
    (∀ delta : Int, InInt64 delta →
      InInt64 ((MemoryPoolStats.init.updates deltas).bytes_allocated + delta) →
      (MemoryPoolStats.init.updates deltas).UpdateAllocatedBytes delta =
        { bytes_allocated_ := (MemoryPoolStats.init.updates deltas).bytes_allocated + delta,
          max_memory_ := max (MemoryPoolStats.init.updates deltas).max_memory
            ((MemoryPoolStats.init.updates deltas).bytes_allocated + delta) }) ∧
    (MemoryPoolStats.init.updates deltas).max_memory =
      (MemoryPoolStats.init.bytesHistory deltas).foldl max 0 := by
  obtain ⟨h1, h2⟩ := updates_peak deltas MemoryPoolStats.init (le_refl _) hno
  exact ⟨fun delta _ hsum => updateAllocatedBytes_eq_max _ delta h1 hsum, h2⟩

/-- Witness of C15: the updates +100, +27, -100, -27 of the test, then the step -5. -/
theorem peak_tracking_step_witness :
    MemoryPoolStats.init.noOverflow [100, 27, -100, -27] = true ∧
    MemoryPoolStats.init.bytesHistory [100, 27, -100, -27] = [100, 127, 27, 0] ∧
    (MemoryPoolStats.init.updates [100, 27, -100, -27]).max_memory = 127 ∧
    (MemoryPoolStats.init.updates [100, 27, -100, -27]).UpdateAllocatedBytes (-5) =
      { bytes_allocated_ := -5, max_memory_ := 127 } :=
  ⟨by decide, by decide,
    (peak_tracking_step [100, 27, -100, -27] (by decide)).2.trans (by decide),
    ((peak_tracking_step [100, 27, -100, -27] (by decide)).1 (-5) (by decide)
      (by decide)).trans (by decide)⟩

/-! ## What leaves the peak alone -/

theorem updateAllocatedBytes_nonpos_max (s : MemoryPoolStats) (d : Int) (hd : d ≤ 0) :
    (s.UpdateAllocatedBytes d).max_memory_ = s.max_memory_ := by
  unfold MemoryPoolStats.UpdateAllocatedBytes
  simp only
  rw [if_neg (fun h => absurd h.1 (by omega))]

theorem allocate_not_ok_stats (env : Env) (p : Pool) (size : Int) (out : Nat)
    (hk : (Pool.Allocate env size out p).1.ok = false) :
    (Pool.Allocate env size out p).2.2.stats_ = p.stats_ := by
  by_cases h0 : size < 0
  · rw [allocate_of_negative env p size out h0]
  · by_cases h1 : static_cast_uint64 size ≥ env.size_t_max
    · unfold Pool.Allocate
      rw [if_neg h0, if_pos h1]
    · cases hb : (AllocateAligned env size out p.sys).1.ok with
      | true =>
        rw [allocate_of_backend_ok env p size out h0 h1 hb] at hk
        exact absurd hk (by simp [Status.ok, Status.OK])
      | false => rw [allocate_of_backend_not_ok env p size out h0 h1 hb]

/-- The statistics after a completed `Reallocate`: untouched, or updated once with
`new_size - old_size` after a validated `new_size` and an OK status. -/
theorem reallocate_stats (env : Env) (p : Pool) (old_size new_size : Int) (ptr : Nat)
    (r : Status × Nat × Pool) (hr : Pool.Reallocate env old_size new_size ptr p = some r) :
    r.2.2.stats_ = p.stats_ ∨
    (0 ≤ new_size ∧ r.1.ok = true ∧
      r.2.2.stats_ = p.stats_.UpdateAllocatedBytes (wrap64 (new_size - old_size))) := by
  by_cases h0 : new_size < 0
  · unfold Pool.Reallocate at hr
    rw [if_pos h0] at hr
    cases hr
    exact Or.inl rfl
  · by_cases h1 : static_cast_uint64 new_size ≥ env.size_t_max
    · unfold Pool.Reallocate at hr
      rw [if_neg h0, if_pos h1] at hr
      cases hr
      exact Or.inl rfl
    · cases hb : ReallocateAligned env old_size new_size ptr p.sys with
      | none =>
        unfold Pool.Reallocate at hr
        rw [if_neg h0, if_neg h1, hb] at hr
        cases hr
      | some r1 =>
        cases hk1 : r1.1.ok with
        | true =>
          rw [reallocate_of_backend_ok env p old_size new_size ptr h0 h1 r1 hb hk1] at hr
          cases hr
          exact Or.inr ⟨by omega, rfl, rfl⟩
        | false =>
          rw [reallocate_of_backend_not_ok env p old_size new_size ptr h0 h1 r1 hb hk1] at hr
          cases hb2 : ReallocateAligned env old_size new_size r1.2.1 r1.2.2 with
          | none => rw [hb2] at hr; cases hr
          | some r2 =>
            rw [hb2] at hr
            cases hr
            exact Or.inl rfl

/-- C16: `max_memory()` is the same after as before each of these calls, for every pool
state: a completed `Free(ptr, size)` with an `int64_t` size `>= 0`; a `Reallocate` that
returns OK with `new_size <= old_size` (`old_size` an `int64_t`); `Allocate(0)`; an
`Allocate` or a `Reallocate` that returns a non-OK status; and `ReleaseUnused()`, which
also leaves `bytes_allocated()` as it was. -/
theorem max_memory_frame (env : Env) (p : Pool) :
    (∀ (buffer : Nat) (size : Int) (q : Pool), 0 ≤ size → size ≤ INT64_MAX →
      Pool.Free env buffer size p = some q → q.max_memory = p.max_memory) ∧
    (∀ (old_size new_size : Int) (ptr : Nat) (r : Status × Nat × Pool),
      new_size ≤ old_size → old_size ≤ INT64_MAX →
      Pool.Reallocate env old_size new_size ptr p = some r → r.1.ok = true →
      r.2.2.max_memory = p.max_memory) ∧
    (∀ out : Nat, (Pool.Allocate env 0 out p).2.2.max_memory = p.max_memory) ∧
    (∀ (size : Int) (out : Nat), (Pool.Allocate env size out p).1.ok = false →
      (Pool.Allocate env size out p).2.2.max_memory = p.max_memory) ∧
    (∀ (old_size new_size : Int) (ptr : Nat) (r : Status × Nat × Pool),
      Pool.Reallocate env old_size new_size ptr p = some r → r.1.ok = false →
      r.2.2.max_memory = p.max_memory) ∧
    (Pool.ReleaseUnused env p).max_memory = p.max_memory ∧
    (Pool.ReleaseUnused env p).bytes_allocated = p.bytes_allocated := by
  refine ⟨?_, ?_, ?_, ?_, ?_, rfl, rfl⟩
  · intro buffer size q h0 h64 hq
    simp only [Pool.Free] at hq
    split at hq
    · cases hq
    · cases hq
      have hw : wrap64 (-size) ≤ 0 := by
        unfold INT64_MAX at h64
        unfold wrap64
        omega
      exact updateAllocatedBytes_nonpos_max _ _ hw
  · intro old_size new_size ptr r hle h64 hr _
    rcases reallocate_stats env p old_size new_size ptr r hr with e | ⟨h0, _, e⟩
    · show r.2.2.stats_.max_memory_ = p.stats_.max_memory_
      rw [e]
    · show r.2.2.stats_.max_memory_ = p.stats_.max_memory_
      rw [e]
      have hw : wrap64 (new_size - old_size) ≤ 0 := by
        unfold INT64_MAX at h64
        unfold wrap64
        omega
      exact updateAllocatedBytes_nonpos_max _ _ hw
  · intro out
    show (Pool.Allocate env 0 out p).2.2.stats_.max_memory_ = p.stats_.max_memory_
    cases hk : (Pool.Allocate env 0 out p).1.ok with
    | false => rw [allocate_not_ok_stats env p 0 out hk]
    | true =>
      have h1 : ¬ static_cast_uint64 0 ≥ env.size_t_max := by
        intro hge
        unfold Pool.Allocate at hk
        rw [if_neg (by decide), if_pos hge] at hk
        exact absurd hk (by simp [Status.ok, Status.CapacityError])
      rw [allocate_of_backend_ok env p 0 out (by decide) h1
        (by rw [allocateAligned_zero]; rfl)]
      exact updateAllocatedBytes_nonpos_max _ _ (le_refl _)
  · intro size out hk
    show (Pool.Allocate env size out p).2.2.stats_.max_memory_ = p.stats_.max_memory_
    rw [allocate_not_ok_stats env p size out hk]
  · intro old_size new_size ptr r hr hk
    show r.2.2.stats_.max_memory_ = p.stats_.max_memory_
    rcases reallocate_stats env p old_size new_size ptr r hr with e | ⟨_, hok, _⟩
    · rw [e]
    · rw [hok] at hk
      cases hk

/-- Witness of C16: on the pool holding the 100-byte block at 1048576 (peak 100), on the
64-bit platform: `Free(ptr, 100)`, `Reallocate(100, 50, &ptr)`, `Allocate(-1)` and
`Reallocate(100, -1, &ptr)` all leave the peak at 100. -/
theorem max_memory_frame_witness :
    (∃ q, Pool.Free linux64 1048576 100 poolBlock = some q ∧ q.max_memory = 100) ∧
    (∃ r, Pool.Reallocate linux64 100 50 1048576 poolBlock = some r ∧ r.1.ok = true ∧
      r.2.2.max_memory = 100 ∧ r.2.2.bytes_allocated = 50) ∧
    (Pool.Allocate linux64 (-1) 0 poolBlock).1.ok = false ∧
    (Pool.Allocate linux64 (-1) 0 poolBlock).2.2.max_memory = 100 ∧
    (∃ r, Pool.Reallocate linux64 100 (-1) 1048576 poolBlock = some r ∧ r.1.ok = false ∧
      r.2.2.max_memory = 100) :=
  have hfree : Pool.Free linux64 1048576 100 poolBlock =
      some ((Pool.Free linux64 1048576 100 poolBlock).getD poolBlock) := rfl
  have hre : Pool.Reallocate linux64 100 50 1048576 poolBlock =
      some ((Pool.Reallocate linux64 100 50 1048576 poolBlock).getD
        (Status.OK, 0, poolBlock)) := rfl
  have hneg : Pool.Reallocate linux64 100 (-1) 1048576 poolBlock =
      some ((Pool.Reallocate linux64 100 (-1) 1048576 poolBlock).getD
        (Status.OK, 0, poolBlock)) := rfl
  ⟨⟨_, hfree, (max_memory_frame linux64 poolBlock).1 1048576 100 _ (by decide) (by decide)
      hfree⟩,
   ⟨_, hre, by decide,
      (max_memory_frame linux64 poolBlock).2.1 100 50 1048576 _ (by decide) (by decide) hre
        (by decide), by decide⟩,
   by decide,
   (max_memory_frame linux64 poolBlock).2.2.2.1 (-1) 0 (by decide),
   ⟨_, hneg, by decide,
      (max_memory_frame linux64 poolBlock).2.2.2.2.1 100 (-1) 1048576 _ hneg (by decide)⟩⟩

/-! ## Reallocation from the sentinel -/

/-- With the sentinel as current pointer and an `old_size` other than 0,
`ReallocateAligned` does not return: `DCHECK_EQ(old_size, 0)` aborts. -/
theorem reallocateAligned_sentinel_nonzero_old_size (env : Env) (old_size new_size : Int)
    (s : Sys) (h : old_size ≠ 0) :
    ReallocateAligned env old_size new_size env.zero_size_area s = none := by
  unfold ReallocateAligned
  simp only [if_true, if_neg h]

/-- C18: when the current pointer is the address of `zero_size_area` (and `old_size` is 0,
as for every zero-size allocation), for every `new_size`,
`ReallocateAligned(old_size, new_size, ptr)` completes with exactly the status, the pointer
and the process state of `AllocateAligned(new_size, ptr)`: the bytes of memory are
unchanged and the only library calls made are `posix_memalign` calls, so the sentinel is
neither passed to `free` nor read by `memcpy`. The sentinel is recognised by its address,
not by the size: a pointer with any other address is passed to `free` by
`ReallocateAligned(0, 0, ptr)`. -/
theorem reallocateAligned_from_sentinel (env : Env) (old_size new_size : Int) (s : Sys)
    (h0 : old_size = 0) :
    ReallocateAligned env old_size new_size env.zero_size_area s =
      some (AllocateAligned env new_size env.zero_size_area s) ∧
    (∃ r, ReallocateAligned env old_size new_size env.zero_size_area s = some r ∧
      r.1 = (AllocateAligned env new_size env.zero_size_area s).1 ∧
      r.2.1 = (AllocateAligned env new_size env.zero_size_area s).2.1 ∧
      r.2.2.mem = s.mem ∧
      ∃ l, r.2.2.trace = s.trace ++ l ∧
        (∀ c ∈ l, ∃ a n res st, c = SysCall.posix_memalign a n res st) ∧
        SysCall.free env.zero_size_area ∉ l ∧
        ∀ dst n, SysCall.memcpy dst env.zero_size_area n ∉ l) ∧
    (∀ ptr : Nat, ptr ≠ env.zero_size_area →
      ReallocateAligned env 0 0 ptr s = some (Status.OK, env.zero_size_area, s.free ptr)) := by
  have he : ReallocateAligned env old_size new_size env.zero_size_area s =
      some (AllocateAligned env new_size env.zero_size_area s) := by
    unfold ReallocateAligned
    simp only [if_true, if_pos h0]
  refine ⟨he, ⟨_, he, rfl, rfl, ?_⟩, ?_⟩
  · obtain ⟨hm, l, hl, hall⟩ := allocateAligned_frame env new_size env.zero_size_area s
    refine ⟨hm, l, hl, hall, ?_, ?_⟩
    · intro hmem
      obtain ⟨a, n, res, st, hc⟩ := hall _ hmem
      cases hc
    · intro dst n hmem
      obtain ⟨a, n', res, st, hc⟩ := hall _ hmem
      cases hc
  · intro ptr hp
    unfold ReallocateAligned DeallocateAligned
    simp only [if_neg hp, if_true]

/-- Witness of C18: `ReallocateAligned(0, 100, &ptr)` with the sentinel, in a process that
has made no library call, on the 64-bit platform. -/
theorem reallocateAligned_from_sentinel_witness :
    (0 : Int) = 0 ∧
    (ReallocateAligned linux64 0 100 linux64.zero_size_area sys0).map
      (fun r => (r.1, r.2.1, r.2.2.trace)) =
      some (Status.OK, 1048576, [SysCall.posix_memalign 64 100 0 (some 1048576)]) ∧
    (AllocateAligned linux64 100 linux64.zero_size_area sys0).2.1 = 1048576 ∧
    ((1048576 : Nat) ≠ linux64.zero_size_area ∧
      ReallocateAligned linux64 0 0 1048576 sysBlock =
        some (Status.OK, linux64.zero_size_area, sysBlock.free 1048576)) :=
  have h := reallocateAligned_from_sentinel linux64 0 100 sys0 rfl
  ⟨rfl, by rw [h.1]; decide, by decide,
    ⟨by decide, (reallocateAligned_from_sentinel linux64 0 100 sysBlock rfl).2.2 1048576
      (by decide)⟩⟩

/-! ## The result codes of the allocator -/

theorem allocateAligned_ok_iff (env : Env) (size : Int) (out : Nat) (s : Sys)
    (hne : size ≠ 0) :
    (AllocateAligned env size out s).1.ok = true ↔
      ((env.posix_memalign s.trace kAlignment (static_cast_size_t env size)).1 ≠ ENOMEM ∧
       (env.posix_memalign s.trace kAlignment (static_cast_size_t env size)).1 ≠ EINVAL) := by
  rw [allocateAligned_status env size out s hne]
  by_cases h1 : (env.posix_memalign s.trace kAlignment (static_cast_size_t env size)).1 =
      ENOMEM
  · rw [if_pos h1]
    simp [Status.ok, Status.OutOfMemory, h1]
  · rw [if_neg h1]
    by_cases h2 : (env.posix_memalign s.trace kAlignment (static_cast_size_t env size)).1 =
        EINVAL
    · rw [if_pos h2]
      simp [Status.ok, Status.Invalid, h2]
    · rw [if_neg h2]
      simp [Status.ok, Status.OK, h1, h2]

theorem allocateAligned_trace (env : Env) (size : Int) (out : Nat) (s : Sys)
    (hne : size ≠ 0) :
    (AllocateAligned env size out s).2.2.trace = s.trace ++
      [SysCall.posix_memalign kAlignment (static_cast_size_t env size)
        (env.posix_memalign s.trace kAlignment (static_cast_size_t env size)).1
        (env.posix_memalign s.trace kAlignment (static_cast_size_t env size)).2] := by
  unfold AllocateAligned
  rw [if_neg hne]
  simp only
  split
  · rfl
  · split <;> rfl

/-- C20: for `size > 0`, with `res` the result code of the `posix_memalign` call:
`AllocateAligned` returns `OutOfMemory` exactly when `res` is `ENOMEM`, `Invalid` exactly
when `res` is `EINVAL`, and the status OK for every other `res`, zero or not. For a size
that passes the validation of `Allocate`: when `res` is neither `ENOMEM` nor `EINVAL`,
`Allocate` returns OK and makes one statistics update with `+size`; when the allocator gives
the same result code at the second evaluation that `RETURN_NOT_OK` makes after a non-OK
status, `Allocate` returns OK exactly when `res` is neither `ENOMEM` nor `EINVAL`; and in
every case `Allocate` returns OK exactly when the result code of the last `posix_memalign`
call it made is neither `ENOMEM` nor `EINVAL`. -/
theorem allocate_result_codes (env : Env) (p : Pool) (size : Int) (out : Nat)
    (hpos : 0 < size) :
    ((AllocateAligned env size out p.sys).1.code = StatusCode.OutOfMemory ↔
      (env.posix_memalign p.sys.trace kAlignment (static_cast_size_t env size)).1 = ENOMEM) ∧
    ((AllocateAligned env size out p.sys).1.code = StatusCode.Invalid ↔
      (env.posix_memalign p.sys.trace kAlignment (static_cast_size_t env size)).1 = EINVAL) ∧
    ((env.posix_memalign p.sys.trace kAlignment (static_cast_size_t env size)).1 ≠ ENOMEM →
      (env.posix_memalign p.sys.trace kAlignment (static_cast_size_t env size)).1 ≠ EINVAL →
      (AllocateAligned env size out p.sys).1 = Status.OK) ∧
    (static_cast_uint64 size < env.size_t_max →
      (env.posix_memalign p.sys.trace kAlignment (static_cast_size_t env size)).1 ≠ ENOMEM →
      (env.posix_memalign p.sys.trace kAlignment (static_cast_size_t env size)).1 ≠ EINVAL →
      (Pool.Allocate env size out p).1 = Status.OK ∧
      (Pool.Allocate env size out p).2.2.stats_ = p.stats_.UpdateAllocatedBytes size ∧
      (Pool.Allocate env size out p).2.2.bytes_allocated =
        wrap64 (p.bytes_allocated + size)) ∧
    (static_cast_uint64 size < env.size_t_max →
      (env.posix_memalign (AllocateAligned env size out p.sys).2.2.trace kAlignment
          (static_cast_size_t env size)).1 =
        (env.posix_memalign p.sys.trace kAlignment (static_cast_size_t env size)).1 →
      ((Pool.Allocate env size out p).1.ok = true ↔
        ((env.posix_memalign p.sys.trace kAlignment (static_cast_size_t env size)).1 ≠
            ENOMEM ∧
         (env.posix_memalign p.sys.trace kAlignment (static_cast_size_t env size)).1 ≠
            EINVAL))) ∧
    (static_cast_uint64 size < env.size_t_max →
      ∃ a n res st,
        (Pool.Allocate env size out p).2.2.sys.trace.getLast? =
          some (SysCall.posix_memalign a n res st) ∧
        ((Pool.Allocate env size out p).1.ok = true ↔ (res ≠ ENOMEM ∧ res ≠ EINVAL))) := by
  have hne : size ≠ 0 := by omega
  have h0 : ¬ size < 0 := by omega
  have hst := allocateAligned_status env size out p.sys hne
  have hiff := allocateAligned_ok_iff env size out p.sys hne
  refine ⟨?_, ?_, ?_, ?_, ?_, ?_⟩
  · rw [hst]
    constructor
    · intro h
      by_contra hc
      rw [if_neg hc] at h
      split at h <;> cases h
    · intro h
      rw [if_pos h]
      rfl
  · rw [hst]
    constructor
    · intro h
      by_contra hc
      rw [if_neg hc] at h
      split at h <;> cases h
    · intro h
      have hn : (env.posix_memalign p.sys.trace kAlignment (static_cast_size_t env size)).1 ≠
          ENOMEM := by
        rw [h]
        decide
      rw [if_neg hn, if_pos h]
      rfl
  · intro h1 h2
    rw [hst, if_neg h1, if_neg h2]
  · intro hv h1 h2
    have hk := hiff.2 ⟨h1, h2⟩
    rw [allocate_of_backend_ok env p size out h0 (by omega) hk]
    exact ⟨rfl, rfl, rfl⟩
  · intro hv hsame
    cases hk : (AllocateAligned env size out p.sys).1.ok with
    | true =>
      rw [allocate_of_backend_ok env p size out h0 (by omega) hk]
      exact ⟨fun _ => hiff.1 hk, fun _ => rfl⟩
    | false =>
      rw [allocate_of_backend_not_ok env p size out h0 (by omega) hk]
      simp only
      rw [allocateAligned_ok_iff env size _ _ hne, hsame]
  · intro hv
    cases hk : (AllocateAligned env size out p.sys).1.ok with
    | true =>
      rw [allocate_of_backend_ok env p size out h0 (by omega) hk]
      refine ⟨kAlignment, static_cast_size_t env size,
        (env.posix_memalign p.sys.trace kAlignment (static_cast_size_t env size)).1,
        (env.posix_memalign p.sys.trace kAlignment (static_cast_size_t env size)).2, ?_, ?_⟩
      · simp only
        rw [allocateAligned_trace env size out p.sys hne, List.getLast?_append]
        rfl
      · exact ⟨fun _ => hiff.1 hk, fun _ => rfl⟩
    | false =>
      rw [allocate_of_backend_not_ok env p size out h0 (by omega) hk]
      refine ⟨kAlignment, static_cast_size_t env size,
        (env.posix_memalign (AllocateAligned env size out p.sys).2.2.trace kAlignment
          (static_cast_size_t env size)).1,
        (env.posix_memalign (AllocateAligned env size out p.sys).2.2.trace kAlignment
          (static_cast_size_t env size)).2, ?_, ?_⟩
      · simp only
        rw [allocateAligned_trace env size _ _ hne, List.getLast?_append]
        rfl
      · simp only
        exact allocateAligned_ok_iff env size _ _ hne

/-- Witness of C20: `Allocate(100)` on a fresh pool of the platform whose allocator answers
with the result code 1: the status is OK and 100 bytes are counted, with the pointer left
as it was. -/
theorem allocate_result_codes_witness :
    (0 : Int) < 100 ∧
    (otherCode64.posix_memalign (Pool.fresh sys0).sys.trace kAlignment
      (static_cast_size_t otherCode64 100)).1 = 1 ∧
    (Pool.Allocate otherCode64 100 0 (Pool.fresh sys0)).1 = Status.OK ∧
    (Pool.Allocate otherCode64 100 0 (Pool.fresh sys0)).2.2.bytes_allocated = 100 ∧
    (Pool.Allocate otherCode64 100 0 (Pool.fresh sys0)).2.1 = 0 :=
  have h := (allocate_result_codes otherCode64 (Pool.fresh sys0) 100 0 (by decide)).2.2.2.1
    (by decide) (by decide) (by decide)
  ⟨by decide, by decide, h.1, h.2.2.trans (by decide), by decide⟩

/-! ## A failed allocation that is reported as a successful reallocation -/

/-- C11 at a failing input: on the platform whose allocator refuses the second request of
the process and serves the others, the process holds the 100-byte block at 1048576 and calls
`ReallocateAligned(100, 200, &ptr)`. Allocating the new block fails: the first evaluation of
`AllocateAligned(200, &out)` returns `OutOfMemory` and stores nothing. `ReallocateAligned`
does not return that error: the second evaluation made by `RETURN_NOT_OK` obtains the block
at 1048704 and its OK status is returned. The caller's pointer still holds 1048576 and the
old block is neither copied nor freed, but the call reports OK and the block at 1048704 has
been taken from the allocator without being handed to the caller. -/
theorem reallocateAligned_failed_allocation_returns_ok :
    (1048576 : Nat) ≠ flakySecond64.zero_size_area ∧
    (AllocateAligned flakySecond64 200 0 sysBlock).1 =
      Status.OutOfMemory "malloc of size 200 failed" ∧
    (AllocateAligned flakySecond64 200 0 sysBlock).1.ok = false ∧
    (AllocateAligned flakySecond64 200 0 sysBlock).2.1 = 0 ∧
    (ReallocateAligned flakySecond64 100 200 1048576 sysBlock).map
      (fun r => (r.1, r.2.1, r.2.2.trace)) =
      some (Status.OK, 1048576,
        [SysCall.posix_memalign 64 100 0 (some 1048576),
         SysCall.posix_memalign 64 200 ENOMEM none,
         SysCall.posix_memalign 64 200 0 (some 1048704)]) ∧
    ¬ ∃ r, ReallocateAligned flakySecond64 100 200 1048576 sysBlock = some r ∧
      r.1 = (AllocateAligned flakySecond64 200 0 sysBlock).1 := by
  have hev : (ReallocateAligned flakySecond64 100 200 1048576 sysBlock).map
      (fun r => (r.1, r.2.1, r.2.2.trace)) =
      some (Status.OK, 1048576,
        [SysCall.posix_memalign 64 100 0 (some 1048576),
         SysCall.posix_memalign 64 200 ENOMEM none,
         SysCall.posix_memalign 64 200 0 (some 1048704)]) := by decide
  have hst : (AllocateAligned flakySecond64 200 0 sysBlock).1 =
      Status.OutOfMemory "malloc of size 200 failed" := by decide
  refine ⟨by decide, hst, by decide, by decide, hev, ?_⟩
  rintro ⟨r, hr, hs⟩
  rw [hr] at hev
  simp only [Option.map_some', Option.some.injEq, Prod.mk.injEq] at hev
  rw [hst, hev.1] at hs
  exact absurd hs (by decide)

end arrow
